import Mathlib

/-!
Verification development for the Spring Boot migration scanner
(`scan_migration_issues.py`).  The scanner's data model (`Issue`,
`ScanResult`), the four file-kind scanners and the report renderer are
embedded as executable Lean definitions over `List Char` file contents;
file reads that may fail are modelled with `Except String (List Char)`.
Lines of every file are obtained by splitting the content at newline
characters; for the substring, strip and startswith checks the scanner
performs this is observationally equivalent to Python's `readlines`
(no checked pattern contains a newline, and the possible extra trailing
empty line matches no pattern).
-/

/-- Characters treated as whitespace by Python's `str.strip()`. -/
def isPyWs (c : Char) : Bool :=
  c == ' ' || c == '\t' || c == '\n' || c == '\r' || c == '\x0b' || c == '\x0c'

/-- Python `str.strip()`: drop whitespace from both ends. -/
def pyStrip (l : List Char) : List Char :=
  ((l.dropWhile isPyWs).reverse.dropWhile isPyWs).reverse

/-- Python substring test `pat in s`. -/
def containsSub (pat : List Char) : List Char → Bool
  | [] => pat.isEmpty
  | c :: cs => pat.isPrefixOf (c :: cs) || containsSub pat cs

/-- Python `content.split(chr(10))`: split into lines at newline characters,
dropping the separators; a trailing newline yields a final empty line. -/
def splitNL : List Char → List (List Char)
  | [] => [[]]
  | c :: cs =>
    match splitNL cs with
    | [] => if c = '\n' then [[], []] else [[c]]
    | h :: t => if c = '\n' then [] :: h :: t else (c :: h) :: t

/-- Join lines with newline characters (Python `chr(10).join(lines)`). -/
def joinNL (lines : List (List Char)) : List Char :=
  List.intercalate ['\n'] lines

/-- A character accepted by the version-capture character class `[0-9.]`. -/
def isVerChar (c : Char) : Bool := c.isDigit || c == '.'

/-- Maximal leading run of version characters (the greedy capture `[0-9.]+`). -/
def takeVer : List Char → List Char
  | [] => []
  | c :: cs => if isVerChar c then c :: takeVer cs else []

/-- Whether a list starts with a version character (so `[0-9.]+` can match). -/
def verHeadOk : List Char → Bool
  | [] => false
  | c :: _ => isVerChar c

/-- Whether a list does not start with a version character. -/
def headNotVer : List Char → Bool
  | [] => true
  | c :: _ => !isVerChar c

/-- The full regex `lit` followed by `[0-9.]+` matches at the start of `s`. -/
def matchesAt (lit s : List Char) : Bool :=
  lit.isPrefixOf s && verHeadOk (s.drop lit.length)

/-- `re.search` of `lit` followed by `[0-9.]+`: leftmost match position,
returning the greedy capture of the version group. -/
def findMatch (lit : List Char) : List Char → Option (List Char)
  | [] => none
  | c :: cs =>
    if matchesAt lit (c :: cs) then some (takeVer ((c :: cs).drop lit.length))
    else findMatch lit cs

/-- Version extraction as `_scan_pom` stores it: the captured group of the
first match, or the sentinel when the pattern does not match. -/
def extractVer (lit content : List Char) : String :=
  match findMatch lit content with
  | some v => String.mk v
  | none => "Unknown"

example : containsSub "bc".toList "abcd".toList = true := by decide
example : containsSub "bd".toList "abcd".toList = false := by decide
example : splitNL "a\nb".toList = ["a".toList, "b".toList] := by decide
example : splitNL "a\n".toList = ["a".toList, []] := by decide
example : splitNL [] = [[]] := by decide
example : pyStrip "  //x \n".toList = "//x".toList := by decide
example : findMatch "<v>".toList "a<v>x<v>1.2-M".toList = some "1.2".toList := by decide
example : findMatch "<v>".toList "a<v>x<v>b".toList = none := by decide

/-- One detected migration problem (the `Issue` dataclass). -/
structure Issue where
  category : String
  severity : String
  file_path : String
  line_number : Nat
  issue : String
  suggestion : String
deriving DecidableEq

/-- Accumulated scan results (the `ScanResult` dataclass): three detected
version strings defaulting to the sentinel, plus the ordered issue list. -/
structure ScanResult where
  spring_boot_version : String := "Unknown"
  spring_modulith_version : String := "Unknown"
  testcontainers_version : String := "Unknown"
  issues : List Issue := []
deriving DecidableEq

/-- The empty `ScanResult` created in `MigrationScanner.__init__`. -/
def initResult : ScanResult := {}

/-- The three version fields of a `ScanResult`, as a triple. -/
def versions (r : ScanResult) : String × String × String :=
  (r.spring_boot_version, r.spring_modulith_version, r.testcontainers_version)

/-- A project tree as the scanner observes it.  `pom`, `appProperties` and
`appYml` are `none` when the file does not exist, and otherwise hold the
outcome of reading the file (`Except.error` models a raised read error).
`javaFiles` lists the recursively discovered source files keyed by their
path relative to the project root (the `str(rel_path)` the scanner reports).
`migrationRoot` is `none` when `src/main/resources/db/migration` does not
exist, `some none` when it exists without a `__root` subdirectory, and
`some (some names)` when `__root` exists and holds files named `names`. -/
structure Project where
  projectPath : String
  pom : Option (Except String (List Char))
  javaFiles : List (String × Except String (List Char))
  appProperties : Option (Except String (List Char))
  appYml : Option (Except String (List Char))
  migrationRoot : Option (Option (List (List Char)))

/-- `str(self.project_path / a_pom_file_name)` as the pom issues record it. -/
def pomPathS (p : Project) : String := p.projectPath ++ "/pom.xml"

/-- Relative path of the properties-style configuration file. -/
def propsPathS : String := "src/main/resources/application.properties"

/-- Relative path of the structured configuration file. -/
def ymlPathS : String := "src/main/resources/application.yml"

/-- Path string used by the missing-subdirectory migration issue. -/
def migDirS : String := "src/main/resources/db/migration/"

/-- Path string used by the missing-schema-file migration issue. -/
def migRootDirS : String := "src/main/resources/db/migration/__root/"

/-- One substring-matching rule of a per-line rule table: the pattern, whether
commented lines (trimmed line starting with the line-comment marker) are
skipped, and the issue and suggestion texts to report. -/
structure LineRule where
  pattern : List Char
  commentGuard : Bool
  descr : String
  sugg : String

/-- Trimmed line starts with the line-comment marker (Python
`line.strip().startswith(two-slash-marker)`). -/
def isCommentLine (l : List Char) : Bool :=
  ['/', '/'].isPrefixOf (pyStrip l)

/-- Trimmed line starts with the properties comment marker. -/
def isHashLine (l : List Char) : Bool :=
  ['#'].isPrefixOf (pyStrip l)

/-- Apply a rule table to one line: each rule whose pattern occurs in the
line (and whose comment guard passes) contributes one issue with the given
category, severity, path and 1-based line number. -/
def runRules (cat sev path : String) (rules : List LineRule) (i : Nat)
    (l : List Char) : List Issue :=
  rules.filterMap fun rule =>
    if containsSub rule.pattern l && (!rule.commentGuard || !isCommentLine l) then
      some ⟨cat, sev, path, i, rule.descr, rule.sugg⟩
    else none

/-- Run a per-line issue function over every line, numbering lines from `n`. -/
def linesIssues (f : Nat → List Char → List Issue) : Nat → List (List Char) → List Issue
  | _, [] => []
  | i, l :: ls => f i l ++ linesIssues f (i + 1) ls

/-- The context window of `_scan_pom`: the slice from `max(0, i-3)` up to
(excluding) `min(len(lines), i+2)` of the 0-based line array, joined with
newlines, where `i` is the 1-based number of the matching line. -/
def contextWindow (lines : List (List Char)) (i : Nat) : List Char :=
  joinNL ((lines.take (i + 2)).drop (i - 3))

/-- Literal of the spring-boot version tag regex. -/
def sbLit : List Char := "<spring-boot.version>".toList

/-- Literal of the spring-modulith version tag regex. -/
def smLit : List Char := "<spring-modulith.version>".toList

/-- Literal of the testcontainers version tag regex. -/
def tcLit : List Char := "<testcontainers.version>".toList

/-- Old-starter rename rules of `_scan_pom` (CRITICAL, no comment guard). -/
def starterRules : List LineRule := [
  ⟨"<artifactId>spring-boot-starter-web</artifactId>".toList, false,
    "Old starter: spring-boot-starter-web",
    "Change to: spring-boot-starter-webmvc (or use spring-boot-starter-classic for gradual migration)"⟩,
  ⟨"<artifactId>spring-boot-starter-aop</artifactId>".toList, false,
    "Old starter: spring-boot-starter-aop",
    "Change to: spring-boot-starter-aspectj (or use spring-boot-starter-classic for gradual migration)"⟩]

/-- Per-line old-starter check of `_scan_pom`. -/
def starterLine (path : String) (i : Nat) (l : List Char) : List Issue :=
  runRules "Spring Boot 4 - Dependencies" "CRITICAL" path starterRules i l

/-- Artifact line pattern of the spring-security-test compound check. -/
def secArtLit : List Char := "<artifactId>spring-security-test</artifactId>".toList

/-- Group identifier sought in the context window of the security check. -/
def secGroupLit : List Char := "<groupId>org.springframework.security</groupId>".toList

/-- Per-line spring-security-test check of `_scan_pom`: the artifact line
fires only when the surrounding context window also names the old group. -/
def secLine (path : String) (lines : List (List Char)) (i : Nat) (l : List Char) : List Issue :=
  if containsSub secArtLit l && containsSub secGroupLit (contextWindow lines i) then
    [⟨"Spring Boot 4 - Dependencies", "CRITICAL", path, i,
      "Old spring-security-test dependency",
      "Change to: spring-boot-starter-security-test"⟩]
  else []

/-- Group identifier sought in the context window of the Testcontainers check. -/
def tcGroupLit : List Char := "<groupId>org.testcontainers</groupId>".toList

/-- Old bare Testcontainers artifact rules (pattern, issue text, suggestion);
the comment-guard field is unused by this check. -/
def tcArtRules : List LineRule := [
  ⟨"<artifactId>junit-jupiter</artifactId>".toList, false,
    "Old Testcontainers artifact: junit-jupiter", "Change to: testcontainers-junit-jupiter"⟩,
  ⟨"<artifactId>postgresql</artifactId>".toList, false,
    "Old Testcontainers artifact: postgresql", "Change to: testcontainers-postgresql"⟩,
  ⟨"<artifactId>mysql</artifactId>".toList, false,
    "Old Testcontainers artifact: mysql", "Change to: testcontainers-mysql"⟩,
  ⟨"<artifactId>localstack</artifactId>".toList, false,
    "Old Testcontainers artifact: localstack", "Change to: testcontainers-localstack"⟩,
  ⟨"<artifactId>mongodb</artifactId>".toList, false,
    "Old Testcontainers artifact: mongodb", "Change to: testcontainers-mongodb"⟩]

/-- Per-line Testcontainers 1.x artifact check of `_scan_pom`: each bare
artifact fires only when the context window names the owning group. -/
def tcArtLine (path : String) (lines : List (List Char)) (i : Nat) (l : List Char) : List Issue :=
  tcArtRules.filterMap fun rule =>
    if containsSub rule.pattern l && containsSub tcGroupLit (contextWindow lines i) then
      some ⟨"Testcontainers 2.x - Dependencies", "WARNING", path, i, rule.descr, rule.sugg⟩
    else none

/-- All issues `_scan_pom` appends, in emission order (the trailing
`spring-retry` content check of the source has no effect and is omitted). -/
def scanPomIssues (path : String) (lines : List (List Char)) : List Issue :=
  linesIssues (starterLine path) 1 lines
  ++ linesIssues (secLine path lines) 1 lines
  ++ linesIssues (tcArtLine path lines) 1 lines

/-- `_scan_pom`: store the first regex capture of each version tag (fields
are left unchanged when the pattern is absent) and append the pom issues. -/
def scanPom (path : String) (content : List Char) (r : ScanResult) : ScanResult :=
  let r1 : ScanResult :=
    { r with
      spring_boot_version :=
        match findMatch sbLit content with
        | some v => String.mk v
        | none => r.spring_boot_version,
      spring_modulith_version :=
        match findMatch smLit content with
        | some v => String.mk v
        | none => r.spring_modulith_version,
      testcontainers_version :=
        match findMatch tcLit content with
        | some v => String.mk v
        | none => r.testcontainers_version }
  { r1 with issues := r1.issues ++ scanPomIssues path (splitNL content) }

/-- Category of the deprecated test-double annotation check. -/
def taCat : String := "Spring Boot 4 - Test Annotations"

/-- Deprecated test-double annotation rules (comment lines excluded). -/
def annRules : List LineRule := [
  ⟨"@MockBean".toList, true, "Old test annotation: @MockBean", "Change to: @MockitoBean"⟩,
  ⟨"@SpyBean".toList, true, "Old test annotation: @SpyBean", "Change to: @MockitoSpyBean"⟩]

/-- Per-line deprecated test-annotation check of `_scan_java_file`. -/
def annLine (path : String) (i : Nat) (l : List Char) : List Issue :=
  runRules taCat "CRITICAL" path annRules i l

/-- Relocated Spring import rules of `_scan_java_file`. -/
def importRules : List LineRule := [
  ⟨"import org.springframework.boot.test.mock.mockito.MockBean".toList, false,
    "Old import: org.springframework.boot.test.mock.mockito.MockBean",
    "Change to: org.springframework.boot.test.mock.mockito.MockitoBean"⟩,
  ⟨"import org.springframework.boot.test.mock.mockito.SpyBean".toList, false,
    "Old import: org.springframework.boot.test.mock.mockito.SpyBean",
    "Change to: org.springframework.boot.test.mock.mockito.MockitoSpyBean"⟩,
  ⟨"import org.springframework.boot.test.autoconfigure.web.servlet.WebMvcTest".toList, false,
    "Old import: org.springframework.boot.test.autoconfigure.web.servlet.WebMvcTest",
    "Change to: org.springframework.boot.webmvc.test.autoconfigure.WebMvcTest"⟩,
  ⟨"import org.springframework.boot.autoconfigure.domain.EntityScan".toList, false,
    "Old import: org.springframework.boot.autoconfigure.domain.EntityScan",
    "Change to: org.springframework.boot.persistence.autoconfigure.EntityScan"⟩,
  ⟨"import org.springframework.boot.BootstrapRegistry".toList, false,
    "Old import: org.springframework.boot.BootstrapRegistry",
    "Change to: org.springframework.boot.bootstrap.BootstrapRegistry"⟩,
  ⟨"import org.springframework.boot.BootstrapContext".toList, false,
    "Old import: org.springframework.boot.BootstrapContext",
    "Change to: org.springframework.boot.bootstrap.BootstrapContext"⟩]

/-- Per-line relocated-import check of `_scan_java_file`. -/
def importLine (path : String) (i : Nat) (l : List Char) : List Issue :=
  runRules "Spring Boot 4 - Package Relocations" "CRITICAL" path importRules i l

/-- Relocated Testcontainers import rules of `_scan_java_file`. -/
def tcImportRules : List LineRule := [
  ⟨"import org.testcontainers.containers.PostgreSQLContainer".toList, false,
    "Old Testcontainers import: org.testcontainers.containers.PostgreSQLContainer",
    "Change to: org.testcontainers.postgresql.PostgreSQLContainer"⟩,
  ⟨"import org.testcontainers.containers.MySQLContainer".toList, false,
    "Old Testcontainers import: org.testcontainers.containers.MySQLContainer",
    "Change to: org.testcontainers.mysql.MySQLContainer"⟩,
  ⟨"import org.testcontainers.containers.MongoDBContainer".toList, false,
    "Old Testcontainers import: org.testcontainers.containers.MongoDBContainer",
    "Change to: org.testcontainers.mongodb.MongoDBContainer"⟩,
  ⟨"import org.testcontainers.containers.localstack.LocalStackContainer".toList, false,
    "Old Testcontainers import: org.testcontainers.containers.localstack.LocalStackContainer",
    "Change to: org.testcontainers.localstack.LocalStackContainer"⟩]

/-- Per-line relocated Testcontainers import check of `_scan_java_file`. -/
def tcImportLine (path : String) (i : Nat) (l : List Char) : List Issue :=
  runRules "Testcontainers 2.x - Package Changes" "CRITICAL" path tcImportRules i l

/-- Pattern of the removed LocalStack service enum. -/
def lsServiceLit : List Char := "LocalStackContainer.Service".toList

/-- Per-line removed-enum check of `_scan_java_file`. -/
def lsServiceLine (path : String) (i : Nat) (l : List Char) : List Issue :=
  runRules "Testcontainers 2.x - API Changes" "CRITICAL" path
    [⟨lsServiceLit, false, "LocalStackContainer.Service enum removed",
      "Remove .withServices() - services are now auto-detected"⟩] i l

/-- Pattern of the resilience namespace advisory. -/
def resilienceLit : List Char := "org.springframework.resilience".toList

/-- Per-line resilience-namespace advisory of `_scan_java_file`. -/
def resilienceLine (path : String) (i : Nat) (l : List Char) : List Issue :=
  runRules "Spring Boot 4 - Retry/Resilience" "INFO" path
    [⟨resilienceLit, false, "Using org.springframework.resilience annotations",
      "Ensure AOP support; if using Spring Retry directly, use org.springframework.retry + explicit version"⟩] i l

/-- Pattern of the retry annotation advisory. -/
def retryableLit : List Char := "@Retryable".toList

/-- Per-line retry-annotation advisory of `_scan_java_file` (comment lines
excluded). -/
def retryableLine (path : String) (i : Nat) (l : List Char) : List Issue :=
  runRules "Spring Boot 4 - Spring Retry" "INFO" path
    [⟨retryableLit, true, "Using @Retryable",
      "Ensure spring-retry dependency with explicit version + spring-boot-starter-aspectj"⟩] i l

/-- Legacy Jackson 2 class rules of `_scan_java_file` (comment lines excluded). -/
def jacksonRules : List LineRule := [
  ⟨"Jackson2ObjectMapperBuilderCustomizer".toList, true,
    "Old Jackson 2 class: Jackson2ObjectMapperBuilderCustomizer",
    "Change to Jackson 3: JsonMapperBuilderCustomizer"⟩,
  ⟨"@JsonComponent".toList, true,
    "Old Jackson 2 class: @JsonComponent",
    "Change to Jackson 3: @JacksonComponent"⟩]

/-- Per-line Jackson 2 class check of `_scan_java_file`. -/
def jacksonLine (path : String) (i : Nat) (l : List Char) : List Issue :=
  runRules "Spring Boot 4 - Jackson 3" "CRITICAL" path jacksonRules i l

/-- Pattern of the generic PostgreSQL container declaration. -/
def pgGenLit : List Char := "PostgreSQLContainer<?>".toList

/-- Pattern of the generic MySQL container declaration. -/
def myGenLit : List Char := "MySQLContainer<?>".toList

/-- Per-line generic container-type check of `_scan_java_file`: one issue per
line containing either generic declaration. -/
def genericLine (path : String) (i : Nat) (l : List Char) : List Issue :=
  if containsSub pgGenLit l || containsSub myGenLit l then
    [⟨"Testcontainers 2.x - Generic Types", "WARNING", path, i,
      "Generic type in Testcontainers container",
      "Remove generic type: PostgreSQLContainer<?> → PostgreSQLContainer"⟩]
  else []

/-- Pattern of the deprecated endpoint accessor call. -/
def endpointLit : List Char := "getEndpointOverride(".toList

/-- Disambiguating token required on the same line as the endpoint call. -/
def serviceLit : List Char := "Service".toList

/-- Per-line deprecated endpoint-accessor check of `_scan_java_file`: fires
only when the call and the service token occur on the same line. -/
def endpointLine (path : String) (i : Nat) (l : List Char) : List Issue :=
  if containsSub endpointLit l && containsSub serviceLit l then
    [⟨"Testcontainers 2.x - LocalStack API", "CRITICAL", path, i,
      "getEndpointOverride(Service) deprecated",
      "Change to: getEndpoint()"⟩]
  else []

/-- All issues `_scan_java_file` appends for one readable source file, in
emission order; the blocks guarded in the source by a whole-content
substring test keep that guard. -/
def scanJavaFileIssues (path : String) (content : List Char) : List Issue :=
  linesIssues (annLine path) 1 (splitNL content)
  ++ linesIssues (importLine path) 1 (splitNL content)
  ++ linesIssues (tcImportLine path) 1 (splitNL content)
  ++ (if containsSub lsServiceLit content then
        linesIssues (lsServiceLine path) 1 (splitNL content) else [])
  ++ (if containsSub resilienceLit content then
        linesIssues (resilienceLine path) 1 (splitNL content) else [])
  ++ (if containsSub retryableLit content then
        linesIssues (retryableLine path) 1 (splitNL content) else [])
  ++ linesIssues (jacksonLine path) 1 (splitNL content)
  ++ (if containsSub pgGenLit content || containsSub myGenLit content then
        linesIssues (genericLine path) 1 (splitNL content) else [])
  ++ (if containsSub endpointLit content then
        linesIssues (endpointLine path) 1 (splitNL content) else [])

/-- `_scan_java_file`: a failed read is reported and the file skipped. -/
def scanJavaFile (path : String) (rd : Except String (List Char)) : List Issue :=
  match rd with
  | Except.error _ => []
  | Except.ok content => scanJavaFileIssues path content

/-- Issues of all discovered source files, in traversal order. -/
def javaAll : List (String × Except String (List Char)) → List Issue
  | [] => []
  | (path, rd) :: rest => scanJavaFile path rd ++ javaAll rest

/-- `_scan_java_files`: scan each discovered source file in turn. -/
def scanJavaFiles (files : List (String × Except String (List Char)))
    (r : ScanResult) : ScanResult :=
  match files with
  | [] => r
  | (path, rd) :: rest =>
      scanJavaFiles rest { r with issues := r.issues ++ scanJavaFile path rd }

/-- Category of the old-Jackson-property configuration check. -/
def cfgCat : String := "Spring Boot 4 - Configuration"

/-- Category of the missing event-store configuration check. -/
def modCfgCat : String := "Spring Modulith 2.0 - Configuration"

/-- Old Jackson configuration-key prefixes flagged in properties files. -/
def jacksonPropPats : List (List Char) :=
  ["spring.jackson.read.".toList, "spring.jackson.write.".toList]

/-- Per-line old-Jackson-property check of `_scan_properties_file`: the issue
text embeds the stripped line, and lines whose trimmed content starts with
the properties comment marker are skipped. -/
def jacksonPropLine (path : String) (i : Nat) (l : List Char) : List Issue :=
  jacksonPropPats.filterMap fun pat =>
    if containsSub pat l && !isHashLine l then
      some ⟨cfgCat, "WARNING", path, i,
        "Old Jackson property: " ++ String.mk (pyStrip l),
        "Change spring.jackson.* to spring.jackson.json.*"⟩
    else none

/-- The event-store schema key sought in the whole file content. -/
def modKeyLit : List Char := "spring.modulith.events.jdbc.schema".toList

/-- The file-level missing event-store configuration issue. -/
def modCfgIssue (path : String) : Issue :=
  ⟨modCfgCat, "CRITICAL", path, 0,
    "Missing Spring Modulith event store configuration",
    "Add: spring.modulith.events.jdbc.schema=events"⟩

/-- Issues `_scan_properties_file` appends for one configuration file: a
failed read skips the file; otherwise the per-line Jackson check runs, and
the file-level event-store issue is appended when a modularity-framework
version was detected and the schema key is absent from the content. -/
def scanPropsFile (path : String) (rd : Except String (List Char))
    (ver : String) : List Issue :=
  match rd with
  | Except.error _ => []
  | Except.ok content =>
      linesIssues (jacksonPropLine path) 1 (splitNL content)
      ++ (if ver != "Unknown" && !containsSub modKeyLit content then
            [modCfgIssue path] else [])

/-- `_scan_properties`: scan each of the two well-known configuration files
that exists, in the fixed order, against the detected modulith version. -/
def scanProperties (p : Project) (r : ScanResult) : ScanResult :=
  let i1 := match p.appProperties with
    | some rd => scanPropsFile propsPathS rd r.spring_modulith_version
    | none => []
  let i2 := match p.appYml with
    | some rd => scanPropsFile ymlPathS rd r.spring_modulith_version
    | none => []
  { r with issues := r.issues ++ (i1 ++ i2) }

/-- Category of the migration-directory check. -/
def dbCat : String := "Spring Modulith 2.0 - Database"

/-- A file name matches the glob `V0__*events*.sql` of `_scan_flyway_migrations`:
it decomposes as the `V0__` stem, then anything, then `events`, then anything,
then the `.sql` extension. -/
def eventsGlob (name : List Char) : Bool :=
  "V0__".toList.isPrefixOf name && ".sql".toList.isSuffixOf name
    && containsSub "events".toList ((name.drop 4).take (name.length - 8))

/-- Issues `_scan_flyway_migrations` appends: nothing when the migration root
directory does not exist; with a detected modularity-framework version, one
CRITICAL file-level issue when the `__root` subdirectory is missing, or when
it exists but holds no file matching the events schema glob. -/
def flywayIssues (mig : Option (Option (List (List Char)))) (ver : String) : List Issue :=
  match mig with
  | none => []
  | some (some names) =>
      if !(names.any eventsGlob) && ver != "Unknown" then
        [⟨dbCat, "CRITICAL", migRootDirS, 0,
          "Missing events schema migration",
          "Create: V0__create_events_schema.sql with 'CREATE SCHEMA events;'"⟩]
      else []
  | some none =>
      if ver != "Unknown" then
        [⟨dbCat, "CRITICAL", migDirS, 0,
          "Missing __root directory for events schema migration",
          "Create: __root/V0__create_events_schema.sql"⟩]
      else []

/-- `_scan_flyway_migrations` as a `ScanResult` transformer. -/
def scanFlyway (mig : Option (Option (List (List Char)))) (r : ScanResult) : ScanResult :=
  { r with issues := r.issues ++ flywayIssues mig r.spring_modulith_version }

/-- The stages of `MigrationScanner.scan` after the pom step: source files,
then configuration files, then migrations, sharing the one `ScanResult`. -/
def scanRest (p : Project) (r : ScanResult) : ScanResult :=
  scanFlyway p.migrationRoot (scanProperties p (scanJavaFiles p.javaFiles r))

/-- `MigrationScanner.scan`: the pom is scanned first when present (a pom
read error is not caught anywhere and aborts the run), then the remaining
scanners run in order; an absent pom only skips the pom step. -/
def scan (p : Project) : Except String ScanResult :=
  match p.pom with
  | some (Except.error e) => Except.error e
  | some (Except.ok c) => Except.ok (scanRest p (scanPom (pomPathS p) c initResult))
  | none => Except.ok (scanRest p initResult)

/-- The scan result of a project whose scan succeeds (default otherwise). -/
def resOf (p : Project) : ScanResult :=
  match scan p with
  | Except.ok r => r
  | Except.error _ => initResult

/-- The `category - severity` string key used to group issues for the report. -/
def issueKey (x : Issue) : String := x.category ++ " - " ++ x.severity

/-- Insert a string into a sorted list of strings. -/
def insertSorted (s : String) : List String → List String
  | [] => [s]
  | t :: ts => if s ≤ t then s :: t :: ts else t :: insertSorted s ts

/-- Sort strings ascending (Python `sorted` over the distinct group keys). -/
def sortKeys : List String → List String
  | [] => []
  | k :: ks => insertSorted k (sortKeys ks)

/-- The report's groups: the distinct group keys in ascending order, each
paired with the issues carrying that key in discovery order. -/
def reportGroups (issues : List Issue) : List (String × List Issue) :=
  (sortKeys (issues.map issueKey).dedup).map
    (fun k => (k, issues.filter (fun x => issueKey x == k)))

/-- Rendered report shape: either the all-clear message, or the summary
severity counts and total followed by the ordered groups. -/
inductive Report where
  | allClear : Report
  | summary (critical warning info total : Nat)
      (groups : List (String × List Issue)) : Report
deriving DecidableEq

/-- `print_report`: the all-clear message and early return on an empty issue
list, else the severity counts, the total, and the grouped issues. -/
def printReport (issues : List Issue) : Report :=
  if issues.isEmpty then Report.allClear
  else Report.summary
    (issues.countP (fun x => x.severity == "CRITICAL"))
    (issues.countP (fun x => x.severity == "WARNING"))
    (issues.countP (fun x => x.severity == "INFO"))
    issues.length
    (reportGroups issues)

/-- The categories the source-file scanner can emit, in block order. -/
def javaCats : List String := [taCat,
  "Spring Boot 4 - Package Relocations",
  "Testcontainers 2.x - Package Changes",
  "Testcontainers 2.x - API Changes",
  "Spring Boot 4 - Retry/Resilience",
  "Spring Boot 4 - Spring Retry",
  "Spring Boot 4 - Jackson 3",
  "Testcontainers 2.x - Generic Types",
  "Testcontainers 2.x - LocalStack API"]

/-- The version triple the pom scan detects for a project: the regex
extraction of each tag when the pom is present and readable, the sentinel
triple otherwise. -/
def pomVersions (p : Project) : String × String × String :=
  match p.pom with
  | some (Except.ok c) => (extractVer sbLit c, extractVer smLit c, extractVer tcLit c)
  | _ => ("Unknown", "Unknown", "Unknown")

/-- The issues the pom scan contributes for a project. -/
def pomIssuesOf (p : Project) : List Issue :=
  match p.pom with
  | some (Except.ok c) => scanPomIssues (pomPathS p) (splitNL c)
  | _ => []

/-- The issues the configuration scan contributes, given the detected
modularity-framework version. -/
def propsAll (p : Project) (ver : String) : List Issue :=
  (match p.appProperties with
   | some rd => scanPropsFile propsPathS rd ver
   | none => []) ++
  (match p.appYml with
   | some rd => scanPropsFile ymlPathS rd ver
   | none => [])

/-- Issues of a scan result attributed to one path string. -/
def issuesFor (r : ScanResult) (q : String) : List Issue :=
  r.issues.filter (fun x => x.file_path == q)

/-- A pom declaring a Spring Modulith version. -/
def pomModC : List Char :=
  "<spring-modulith.version>2.0.0</spring-modulith.version>".toList

/-- Concrete project: modulith version declared, migration root missing. -/
def pX1 : Project :=
  { projectPath := "/p", pom := some (Except.ok pomModC), javaFiles := [],
    appProperties := none, appYml := none, migrationRoot := none }

/-- Concrete project: modulith version declared, migration root present but
the `__root` subdirectory missing. -/
def pW1 : Project :=
  { projectPath := "/p", pom := some (Except.ok pomModC), javaFiles := [],
    appProperties := none, appYml := none, migrationRoot := some none }

/-- Concrete project: modulith version declared and both configuration files
present with empty content (so both lack the event-store schema key). -/
def pX2 : Project :=
  { projectPath := "/p", pom := some (Except.ok pomModC), javaFiles := [],
    appProperties := some (Except.ok []), appYml := some (Except.ok []),
    migrationRoot := none }

/-- Concrete project: modulith version declared and exactly one configuration
file present, lacking the event-store schema key. -/
def pW2 : Project :=
  { projectPath := "/p", pom := some (Except.ok pomModC), javaFiles := [],
    appProperties := some (Except.ok []), appYml := none, migrationRoot := none }

/-- A pom whose old security group identifier sits exactly 3 lines before the
spring-security-test artifact line and nowhere else. -/
def pomX3 : List Char :=
  ("<groupId>org.springframework.security</groupId>\n<a>\n<b>\n"
    ++ "<artifactId>spring-security-test</artifactId>").toList

/-- Concrete project holding only the security-window pom. -/
def pX3 : Project :=
  { projectPath := "/p", pom := some (Except.ok pomX3), javaFiles := [],
    appProperties := none, appYml := none, migrationRoot := none }

/-- Concrete lines for exercising the context window away from the edges. -/
def linesW3 : List (List Char) :=
  ["l1".toList, "l2".toList, "l3".toList, "l4".toList, "l5".toList, "l6".toList]

/-- Concrete project whose build-descriptor read fails. -/
def pX4 : Project :=
  { projectPath := "/p", pom := some (Except.error "Permission denied"),
    javaFiles := [], appProperties := none, appYml := none, migrationRoot := none }

/-- Concrete project with no pom and unreadable source and configuration
files. -/
def pW4 : Project :=
  { projectPath := "/p", pom := none,
    javaFiles := [("A.java", Except.error "bad encoding")],
    appProperties := some (Except.error "bad encoding"), appYml := none,
    migrationRoot := none }

/-- A pom declaring all three scanned versions. -/
def pomW5 : List Char :=
  ("<spring-boot.version>1.2.3</spring-boot.version>\n"
    ++ "<spring-modulith.version>2.0.1</spring-modulith.version>\n"
    ++ "<testcontainers.version>3.4</testcontainers.version>").toList

/-- Concrete project holding the three-version pom. -/
def pW5 : Project :=
  { projectPath := "/p", pom := some (Except.ok pomW5), javaFiles := [],
    appProperties := none, appYml := none, migrationRoot := none }

/-- Concrete project whose pom declares no version tags. -/
def pW5abs : Project :=
  { projectPath := "/p", pom := some (Except.ok "no version tags".toList),
    javaFiles := [], appProperties := none, appYml := none, migrationRoot := none }

/-- Concrete source content: a live deprecated annotation on line 1, a
commented one on line 2. -/
def cW6 : List Char := "  @MockBean Foo foo;\n  // @MockBean Bar bar;".toList

/-- A pom declaring a version with a non-numeric suffix. -/
def pomW10 : List Char :=
  "<spring-boot.version>4.0.0-M1</spring-boot.version>".toList

/-- Concrete project holding the suffixed-version pom. -/
def pW10 : Project :=
  { projectPath := "/p", pom := some (Except.ok pomW10), javaFiles := [],
    appProperties := none, appYml := none, migrationRoot := none }

/-- A pom whose version tag value starts with a non-numeric character. -/
def pomW10b : List Char :=
  "<spring-boot.version>M1</spring-boot.version>".toList

/-- Concrete project holding the non-capturable-version pom. -/
def pW10b : Project :=
  { projectPath := "/p", pom := some (Except.ok pomW10b), javaFiles := [],
    appProperties := none, appYml := none, migrationRoot := none }

/-- Concrete project with a modulith version and a configuration file; its
pom is the one file the C9 counterexample deletes. -/
def pX9 : Project :=
  { projectPath := "/p", pom := some (Except.ok pomModC), javaFiles := [],
    appProperties := some (Except.ok []), appYml := none, migrationRoot := none }

/-- The C9 counterexample project after deleting only the pom. -/
def pX9d : Project := { pX9 with pom := none }

/-- Concrete project with two source files, one of which gets deleted. -/
def pW9 : Project :=
  { projectPath := "/p", pom := some (Except.ok pomModC),
    javaFiles := [("A.java", Except.ok "x".toList),
                  ("B.java", Except.ok "  @MockBean Foo f;".toList)],
    appProperties := none, appYml := none, migrationRoot := none }

/-- Two project trees differing only by the deletion of one file other than
the build descriptor: one source file, one of the two configuration files,
or one file of the migration `__root` directory. -/
inductive DeleteOne : Project → Project → Prop
  | java (p : Project) (k : Nat) (hk : k < p.javaFiles.length) :
      DeleteOne p { p with javaFiles := p.javaFiles.eraseIdx k }
  | props (p : Project) (rd : Except String (List Char))
      (h : p.appProperties = some rd) :
      DeleteOne p { p with appProperties := none }
  | yml (p : Project) (rd : Except String (List Char))
      (h : p.appYml = some rd) :
      DeleteOne p { p with appYml := none }
  | migration (p : Project) (names : List (List Char)) (k : Nat)
      (h : p.migrationRoot = some (some names)) (hk : k < names.length) :
      DeleteOne p { p with migrationRoot := some (some (names.eraseIdx k)) }

/-- Path hygiene of a real tree: discovered source paths are pairwise
distinct and never collide with the well-known paths the other scanners
attribute issues to. -/
def sepPaths (p : Project) : Prop :=
  (p.javaFiles.map Prod.fst).Nodup
  ∧ (∀ s ∈ p.javaFiles.map Prod.fst,
      s ≠ pomPathS p ∧ s ≠ propsPathS ∧ s ≠ ymlPathS ∧ s ≠ migDirS ∧ s ≠ migRootDirS)
  ∧ pomPathS p ≠ propsPathS ∧ pomPathS p ≠ ymlPathS ∧ pomPathS p ≠ migDirS
  ∧ pomPathS p ≠ migRootDirS

/-- Whether a present, readable configuration file lacks the event-store
schema key (counts the file toward the missing-configuration issues). -/
def cfgLack : Option (Except String (List Char)) → Nat
  | some (Except.ok c) => if containsSub modKeyLit c then 0 else 1
  | _ => 0

/-- Concrete example issues for exercising the report renderer. -/
def iW7a : Issue := ⟨"CatA", "CRITICAL", "f1", 1, "d1", "s1"⟩

/-- Second concrete example issue, in another category and severity. -/
def iW7b : Issue := ⟨"CatB", "WARNING", "f2", 2, "d2", "s2"⟩

example :
    (scan { projectPath := "/p",
            pom := some (Except.ok "<spring-modulith.version>2.0</x>".toList),
            javaFiles := [], appProperties := some (Except.ok []), appYml := none,
            migrationRoot := some none }).map (fun r => (r.spring_modulith_version, r.issues.length))
      = Except.ok ("2.0", 2) := by rfl

example : eventsGlob "V0__create_events_schema.sql".toList = true := by decide
example : eventsGlob "V1__events.sql".toList = false := by decide
example : eventsGlob "V0__events.sql".toList = true := by decide
example : eventsGlob "V0__evxents.sql".toList = false := by decide

theorem mem_runRules {cat sev path : String} {rules : List LineRule} {i : Nat}
    {l : List Char} {x : Issue} (h : x ∈ runRules cat sev path rules i l) :
    x.category = cat ∧ x.severity = sev ∧ x.file_path = path ∧ x.line_number = i := by
  rcases List.mem_filterMap.1 h with ⟨rule, _, hr⟩
  split at hr
  · injection hr with hr
    subst hr
    exact ⟨rfl, rfl, rfl, rfl⟩
  · exact Option.noConfusion hr

theorem mem_linesIssues {f : Nat → List Char → List Issue} {x : Issue} :
    ∀ {n : Nat} {ls : List (List Char)}, x ∈ linesIssues f n ls →
      ∃ j l, x ∈ f j l := by
  intro n ls
  induction ls generalizing n with
  | nil => intro h; simp [linesIssues] at h
  | cons a rest ih =>
      intro h
      rcases List.mem_append.1 h with h1 | h2
      · exact ⟨n, a, h1⟩
      · exact ih h2

theorem countP_linesIssues_zero {f : Nat → List Char → List Issue}
    {p : Issue → Bool} (hf : ∀ j l x, x ∈ f j l → p x = false) :
    ∀ (n : Nat) (ls : List (List Char)), (linesIssues f n ls).countP p = 0 := by
  intro n ls
  induction ls generalizing n with
  | nil => simp [linesIssues]
  | cons a rest ih =>
      simp only [linesIssues, List.countP_append, ih]
      have : (f n a).countP p = 0 := by
        apply List.countP_eq_zero.2
        intro x hx
        simp [hf n a x hx]
      omega

theorem countP_linesIssues_gt {f : Nat → List Char → List Issue}
    {p : Issue → Bool} {i : Nat}
    (hf : ∀ j l x, x ∈ f j l → x.line_number = j)
    (hp : ∀ x, p x = true → x.line_number = i) :
    ∀ (n : Nat) (ls : List (List Char)), i < n → (linesIssues f n ls).countP p = 0 := by
  intro n ls
  induction ls generalizing n with
  | nil => intro _; simp [linesIssues]
  | cons a rest ih =>
      intro hi
      simp only [linesIssues, List.countP_append]
      have h1 : (f n a).countP p = 0 := by
        apply List.countP_eq_zero.2
        intro x hx
        intro hpx
        have := hp x hpx
        have := hf n a x hx
        omega
      have h2 := ih (n + 1) (by omega)
      omega

theorem countP_linesIssues_at {f : Nat → List Char → List Issue}
    {p : Issue → Bool} {i : Nat}
    (hf : ∀ j l x, x ∈ f j l → x.line_number = j)
    (hp : ∀ x, p x = true → x.line_number = i) :
    ∀ (n : Nat) (ls : List (List Char)), n ≤ i → i < n + ls.length →
      (linesIssues f n ls).countP p = (f i (ls.getD (i - n) [])).countP p := by
  intro n ls
  induction ls generalizing n with
  | nil => intro _ h; simp at h; omega
  | cons a rest ih =>
      intro hn hi
      simp only [linesIssues, List.countP_append]
      rcases Nat.eq_or_lt_of_le hn with he | hlt
      · subst he
        have h2 : (linesIssues f (n + 1) rest).countP p = 0 :=
          countP_linesIssues_gt hf hp (n + 1) rest (by omega)
        simp [h2]
      · have h1 : (f n a).countP p = 0 := by
          apply List.countP_eq_zero.2
          intro x hx hpx
          have := hp x hpx
          have := hf n a x hx
          omega
        have h2 := ih (n + 1) (by omega)
          (by simp only [List.length_cons] at hi; omega)
        have hg : (a :: rest).getD (i - n) [] = rest.getD (i - (n + 1)) [] := by
          have : i - n = (i - (n + 1)) + 1 := by omega
          simp [this]
        rw [hg, h1, h2]
        omega

theorem mem_secLine {path : String} {lines : List (List Char)} {i : Nat}
    {l : List Char} {x : Issue} (h : x ∈ secLine path lines i l) :
    x.category = "Spring Boot 4 - Dependencies" ∧ x.severity = "CRITICAL"
      ∧ x.file_path = path ∧ x.line_number = i := by
  unfold secLine at h
  split at h
  · rcases List.mem_singleton.1 h with rfl
    exact ⟨rfl, rfl, rfl, rfl⟩
  · simp at h

theorem mem_tcArtLine {path : String} {lines : List (List Char)} {i : Nat}
    {l : List Char} {x : Issue} (h : x ∈ tcArtLine path lines i l) :
    x.category = "Testcontainers 2.x - Dependencies" ∧ x.severity = "WARNING"
      ∧ x.file_path = path ∧ x.line_number = i := by
  rcases List.mem_filterMap.1 h with ⟨rule, _, hr⟩
  split at hr
  · injection hr with hr
    subst hr
    exact ⟨rfl, rfl, rfl, rfl⟩
  · exact Option.noConfusion hr

theorem mem_genericLine {path : String} {i : Nat} {l : List Char} {x : Issue}
    (h : x ∈ genericLine path i l) :
    x.category = "Testcontainers 2.x - Generic Types" ∧ x.severity = "WARNING"
      ∧ x.file_path = path ∧ x.line_number = i := by
  unfold genericLine at h
  split at h
  · rcases List.mem_singleton.1 h with rfl
    exact ⟨rfl, rfl, rfl, rfl⟩
  · simp at h

theorem mem_endpointLine {path : String} {i : Nat} {l : List Char} {x : Issue}
    (h : x ∈ endpointLine path i l) :
    x.category = "Testcontainers 2.x - LocalStack API" ∧ x.severity = "CRITICAL"
      ∧ x.file_path = path ∧ x.line_number = i := by
  unfold endpointLine at h
  split at h
  · rcases List.mem_singleton.1 h with rfl
    exact ⟨rfl, rfl, rfl, rfl⟩
  · simp at h

theorem mem_jacksonPropLine {path : String} {i : Nat} {l : List Char} {x : Issue}
    (h : x ∈ jacksonPropLine path i l) :
    x.category = cfgCat ∧ x.severity = "WARNING"
      ∧ x.file_path = path ∧ x.line_number = i := by
  rcases List.mem_filterMap.1 h with ⟨pat, _, hr⟩
  split at hr
  · injection hr with hr
    subst hr
    exact ⟨rfl, rfl, rfl, rfl⟩
  · exact Option.noConfusion hr

theorem mem_scanPomIssues {path : String} {lines : List (List Char)} {x : Issue}
    (h : x ∈ scanPomIssues path lines) :
    x.file_path = path
      ∧ (x.category = "Spring Boot 4 - Dependencies"
         ∨ x.category = "Testcontainers 2.x - Dependencies") := by
  unfold scanPomIssues at h
  rcases List.mem_append.1 h with h12 | h3
  · rcases List.mem_append.1 h12 with h1 | h2
    · rcases mem_linesIssues h1 with ⟨j, l, hm⟩
      rcases mem_runRules hm with ⟨hc, _, hp, _⟩
      exact ⟨hp, Or.inl hc⟩
    · rcases mem_linesIssues h2 with ⟨j, l, hm⟩
      rcases mem_secLine hm with ⟨hc, _, hp, _⟩
      exact ⟨hp, Or.inl hc⟩
  · rcases mem_linesIssues h3 with ⟨j, l, hm⟩
    rcases mem_tcArtLine hm with ⟨hc, _, hp, _⟩
    exact ⟨hp, Or.inr hc⟩

theorem mem_scanJavaFileIssues {path : String} {content : List Char} {x : Issue}
    (h : x ∈ scanJavaFileIssues path content) :
    x.file_path = path ∧ x.category ∈ javaCats := by
  unfold scanJavaFileIssues at h
  simp only [List.mem_append] at h
  rcases h with ((((((((h | h) | h) | h) | h) | h) | h) | h) | h)
  · rcases mem_linesIssues h with ⟨j, l, hm⟩
    rcases mem_runRules hm with ⟨hc, _, hp, _⟩
    exact ⟨hp, by rw [hc]; simp [javaCats]⟩
  · rcases mem_linesIssues h with ⟨j, l, hm⟩
    rcases mem_runRules hm with ⟨hc, _, hp, _⟩
    exact ⟨hp, by rw [hc]; simp [javaCats]⟩
  · rcases mem_linesIssues h with ⟨j, l, hm⟩
    rcases mem_runRules hm with ⟨hc, _, hp, _⟩
    exact ⟨hp, by rw [hc]; simp [javaCats]⟩
  · split at h
    · rcases mem_linesIssues h with ⟨j, l, hm⟩
      rcases mem_runRules hm with ⟨hc, _, hp, _⟩
      exact ⟨hp, by rw [hc]; simp [javaCats]⟩
    · simp at h
  · split at h
    · rcases mem_linesIssues h with ⟨j, l, hm⟩
      rcases mem_runRules hm with ⟨hc, _, hp, _⟩
      exact ⟨hp, by rw [hc]; simp [javaCats]⟩
    · simp at h
  · split at h
    · rcases mem_linesIssues h with ⟨j, l, hm⟩
      rcases mem_runRules hm with ⟨hc, _, hp, _⟩
      exact ⟨hp, by rw [hc]; simp [javaCats]⟩
    · simp at h
  · rcases mem_linesIssues h with ⟨j, l, hm⟩
    rcases mem_runRules hm with ⟨hc, _, hp, _⟩
    exact ⟨hp, by rw [hc]; simp [javaCats]⟩
  · split at h
    · rcases mem_linesIssues h with ⟨j, l, hm⟩
      rcases mem_genericLine hm with ⟨hc, _, hp, _⟩
      exact ⟨hp, by rw [hc]; simp [javaCats]⟩
    · simp at h
  · split at h
    · rcases mem_linesIssues h with ⟨j, l, hm⟩
      rcases mem_endpointLine hm with ⟨hc, _, hp, _⟩
      exact ⟨hp, by rw [hc]; simp [javaCats]⟩
    · simp at h

theorem mem_scanPropsFile {path : String} {rd : Except String (List Char)}
    {ver : String} {x : Issue} (h : x ∈ scanPropsFile path rd ver) :
    x.file_path = path
      ∧ (x.category = cfgCat
         ∨ (x.category = modCfgCat ∧ x.severity = "CRITICAL" ∧ x.line_number = 0)) := by
  unfold scanPropsFile at h
  split at h
  · simp at h
  · rcases List.mem_append.1 h with h1 | h2
    · rcases mem_linesIssues h1 with ⟨j, l, hm⟩
      rcases mem_jacksonPropLine hm with ⟨hc, _, hp, _⟩
      exact ⟨hp, Or.inl hc⟩
    · split at h2
      · rcases List.mem_singleton.1 h2 with rfl
        exact ⟨rfl, Or.inr ⟨rfl, rfl, rfl⟩⟩
      · simp at h2

theorem mem_flywayIssues {mig : Option (Option (List (List Char)))}
    {ver : String} {x : Issue} (h : x ∈ flywayIssues mig ver) :
    x.category = dbCat ∧ x.severity = "CRITICAL" ∧ x.line_number = 0
      ∧ (x.file_path = migRootDirS ∨ x.file_path = migDirS) := by
  unfold flywayIssues at h
  split at h
  · simp at h
  · split at h
    · rcases List.mem_singleton.1 h with rfl
      exact ⟨rfl, rfl, rfl, Or.inl rfl⟩
    · simp at h
  · split at h
    · rcases List.mem_singleton.1 h with rfl
      exact ⟨rfl, rfl, rfl, Or.inr rfl⟩
    · simp at h

theorem mem_javaAll {x : Issue} :
    ∀ {fs : List (String × Except String (List Char))}, x ∈ javaAll fs →
      ∃ path rd, (path, rd) ∈ fs ∧ x ∈ scanJavaFile path rd := by
  intro fs
  induction fs with
  | nil => intro h; simp [javaAll] at h
  | cons f rest ih =>
      intro h
      rcases List.mem_append.1 h with h1 | h2
      · exact ⟨f.1, f.2, List.mem_cons_self _ _, h1⟩
      · rcases ih h2 with ⟨path, rd, hm, hx⟩
        exact ⟨path, rd, List.mem_cons_of_mem _ hm, hx⟩

theorem scanJavaFiles_spec :
    ∀ (fs : List (String × Except String (List Char))) (r : ScanResult),
      scanJavaFiles fs r = { r with issues := r.issues ++ javaAll fs } := by
  intro fs
  induction fs with
  | nil => intro r; simp [scanJavaFiles, javaAll]
  | cons f rest ih =>
      intro r
      cases f with
      | mk path rd =>
          simp [scanJavaFiles, javaAll, ih]

theorem scan_ok_spec {p : Project} {r : ScanResult} (h : scan p = Except.ok r) :
    versions r = pomVersions p
      ∧ r.issues = pomIssuesOf p ++ javaAll p.javaFiles
          ++ propsAll p (pomVersions p).2.1
          ++ flywayIssues p.migrationRoot (pomVersions p).2.1 := by
  unfold scan at h
  cases hp : p.pom with
  | none =>
      rw [hp] at h
      injection h with h
      subst h
      constructor
      · simp [scanRest, scanFlyway, scanProperties, scanJavaFiles_spec,
          versions, pomVersions, hp, initResult]
      · simp [scanRest, scanFlyway, scanProperties, scanJavaFiles_spec,
          pomVersions, pomIssuesOf, propsAll, hp, initResult]
  | some rd =>
      cases rd with
      | error e => rw [hp] at h; exact Except.noConfusion h
      | ok c =>
          rw [hp] at h
          injection h with h
          subst h
          constructor
          · simp [scanRest, scanFlyway, scanProperties, scanJavaFiles_spec,
              versions, pomVersions, hp, initResult, scanPom, extractVer]
          · simp [scanRest, scanFlyway, scanProperties, scanJavaFiles_spec,
              pomVersions, pomIssuesOf, propsAll, hp, initResult, scanPom, extractVer]

theorem isPrefixOf_append_self :
    ∀ (l t : List Char), l.isPrefixOf (l ++ t) = true := by
  intro l t
  induction l with
  | nil => simp [List.isPrefixOf]
  | cons c cs ih => simp [List.isPrefixOf, ih]

theorem takeVer_append {ver post : List Char} (h1 : ver.all isVerChar = true)
    (h2 : headNotVer post = true) : takeVer (ver ++ post) = ver := by
  induction ver with
  | nil =>
      cases post with
      | nil => rfl
      | cons c cs =>
          simp only [headNotVer, Bool.not_eq_true'] at h2
          simp [takeVer, h2]
  | cons c cs ih =>
      simp only [List.all_cons, Bool.and_eq_true] at h1
      simp [takeVer, h1.1, ih h1.2]

theorem findMatch_drop {lit : List Char} :
    ∀ (n : Nat) (s : List Char),
      (∀ k, k < n → matchesAt lit (s.drop k) = false) →
      findMatch lit s = findMatch lit (s.drop n) := by
  intro n
  induction n with
  | zero => intro s _; simp
  | succ m ih =>
      intro s hk
      rw [ih s (fun k hkm => hk k (by omega))]
      cases hd : s.drop m with
      | nil =>
          have : s.drop (m + 1) = [] := by
            have h1 : s.drop (m + 1) = (s.drop m).drop 1 := by
              rw [List.drop_drop]
            rw [h1, hd]
            rfl
          rw [this]
      | cons c cs =>
          have hm : matchesAt lit (c :: cs) = false := by
            have := hk m (by omega)
            rwa [hd] at this
          have hcs : s.drop (m + 1) = cs := by
            have h1 : s.drop (m + 1) = (s.drop m).drop 1 := by
              rw [List.drop_drop]
            rw [h1, hd]
            rfl
          rw [hcs]
          simp [findMatch, hm]

theorem findMatch_at {lit : List Char} {s : List Char} {n : Nat}
    (h1 : ∀ k, k < n → matchesAt lit (s.drop k) = false)
    (h2 : matchesAt lit (s.drop n) = true) :
    findMatch lit s = some (takeVer ((s.drop n).drop lit.length)) := by
  rw [findMatch_drop n s h1]
  cases hd : s.drop n with
  | nil =>
      rw [hd] at h2
      simp only [matchesAt, List.drop_nil, Bool.and_eq_true] at h2
      exact absurd h2.2 (by simp [verHeadOk])
  | cons c cs =>
      rw [hd] at h2
      simp [findMatch, h2]

theorem findMatch_none {lit s : List Char}
    (h : ∀ k, k < s.length → matchesAt lit (s.drop k) = false) :
    findMatch lit s = none := by
  rw [findMatch_drop s.length s h]
  simp [findMatch]

theorem extractVer_none {lit s : List Char}
    (h : ∀ k, k < s.length → matchesAt lit (s.drop k) = false) :
    extractVer lit s = "Unknown" := by
  unfold extractVer
  rw [findMatch_none h]

theorem extractVer_decomp {lit pre ver post : List Char}
    (h1 : ∀ k, k < pre.length → matchesAt lit ((pre ++ (lit ++ (ver ++ post))).drop k) = false)
    (h2 : ver.all isVerChar = true) (h3 : ver ≠ [])
    (h4 : headNotVer post = true) :
    extractVer lit (pre ++ (lit ++ (ver ++ post))) = String.mk ver := by
  have hdrop : (pre ++ (lit ++ (ver ++ post))).drop pre.length = lit ++ (ver ++ post) :=
    List.drop_left pre (lit ++ (ver ++ post))
  have hmatch : matchesAt lit ((pre ++ (lit ++ (ver ++ post))).drop pre.length) = true := by
    rw [hdrop]
    unfold matchesAt
    rw [isPrefixOf_append_self, List.drop_left]
    cases ver with
    | nil => exact absurd rfl h3
    | cons c cs =>
        simp only [List.all_cons, Bool.and_eq_true] at h2
        simp [verHeadOk, h2.1]
  have := findMatch_at h1 hmatch
  unfold extractVer
  rw [this, hdrop, List.drop_left, takeVer_append h2 h4]

theorem headNotVer_verHeadOk {l : List Char} (h : headNotVer l = true) :
    verHeadOk l = false := by
  cases l with
  | nil => rfl
  | cons c cs =>
      simp only [headNotVer, Bool.not_eq_true'] at h
      simp [verHeadOk, h]

theorem version_field_eq {p : Project} {r : ScanResult} {c : List Char}
    (h : scan p = Except.ok r) (hp : p.pom = some (Except.ok c)) :
    r.spring_boot_version = extractVer sbLit c
      ∧ r.spring_modulith_version = extractVer smLit c
      ∧ r.testcontainers_version = extractVer tcLit c := by
  have hv := (scan_ok_spec h).1
  simp only [pomVersions, hp] at hv
  exact ⟨congrArg Prod.fst hv, congrArg (fun t => t.2.1) hv,
    congrArg (fun t => t.2.2) hv⟩


/-- C5: for every build-descriptor content of the form
`pre ++ tag-literal ++ digits-and-dots value ++ rest` (the value `1.2.3`,
with no earlier regex match and the rest not extending the capture), the
corresponding `ScanResult` version field equals the value after scanning,
for each of the three version tags; and when the tag pattern matches
nowhere in the content, the field equals the sentinel. -/
theorem c5_version_extraction :
    (∀ (p : Project) (r : ScanResult) (pre post : List Char),
        scan p = Except.ok r →
        p.pom = some (Except.ok (pre ++ (sbLit ++ ("1.2.3".toList ++ post)))) →
        (∀ k, k < pre.length →
          matchesAt sbLit ((pre ++ (sbLit ++ ("1.2.3".toList ++ post))).drop k) = false) →
        headNotVer post = true →
        r.spring_boot_version = "1.2.3")
    ∧ (∀ (p : Project) (r : ScanResult) (c : List Char),
        scan p = Except.ok r → p.pom = some (Except.ok c) →
        (∀ k, k < c.length → matchesAt sbLit (c.drop k) = false) →
        r.spring_boot_version = "Unknown")
    ∧ (∀ (p : Project) (r : ScanResult) (pre post : List Char),
        scan p = Except.ok r →
        p.pom = some (Except.ok (pre ++ (smLit ++ ("1.2.3".toList ++ post)))) →
        (∀ k, k < pre.length →
          matchesAt smLit ((pre ++ (smLit ++ ("1.2.3".toList ++ post))).drop k) = false) →
        headNotVer post = true →
        r.spring_modulith_version = "1.2.3")
    ∧ (∀ (p : Project) (r : ScanResult) (c : List Char),
        scan p = Except.ok r → p.pom = some (Except.ok c) →
        (∀ k, k < c.length → matchesAt smLit (c.drop k) = false) →
        r.spring_modulith_version = "Unknown")
    ∧ (∀ (p : Project) (r : ScanResult) (pre post : List Char),
        scan p = Except.ok r →
        p.pom = some (Except.ok (pre ++ (tcLit ++ ("1.2.3".toList ++ post)))) →
        (∀ k, k < pre.length →
          matchesAt tcLit ((pre ++ (tcLit ++ ("1.2.3".toList ++ post))).drop k) = false) →
        headNotVer post = true →
        r.testcontainers_version = "1.2.3")
    ∧ (∀ (p : Project) (r : ScanResult) (c : List Char),
        scan p = Except.ok r → p.pom = some (Except.ok c) →
        (∀ k, k < c.length → matchesAt tcLit (c.drop k) = false) →
        r.testcontainers_version = "Unknown") := by
  refine ⟨?_, ?_, ?_, ?_, ?_, ?_⟩
  · intro p r pre post h hp hk hn
    rw [(version_field_eq h hp).1, extractVer_decomp hk (by decide) (by decide) hn]
    decide
  · intro p r c h hp hk
    rw [(version_field_eq h hp).1, extractVer_none hk]
  · intro p r pre post h hp hk hn
    rw [(version_field_eq h hp).2.1, extractVer_decomp hk (by decide) (by decide) hn]
    decide
  · intro p r c h hp hk
    rw [(version_field_eq h hp).2.1, extractVer_none hk]
  · intro p r pre post h hp hk hn
    rw [(version_field_eq h hp).2.2, extractVer_decomp hk (by decide) (by decide) hn]
    decide
  · intro p r c h hp hk
    rw [(version_field_eq h hp).2.2, extractVer_none hk]

/-- Witness for C5 at concrete poms: the three tags of `pomW5` are detected
with their exact values, and the tagless pom leaves all three fields at the
sentinel. -/
theorem c5_version_extraction_witness :
    (resOf pW5).spring_boot_version = "1.2.3"
      ∧ (resOf pW5abs).spring_boot_version = "Unknown"
      ∧ (resOf pW5abs).spring_modulith_version = "Unknown"
      ∧ (resOf pW5abs).testcontainers_version = "Unknown" := by
  refine ⟨?_, ?_, ?_, ?_⟩
  · exact c5_version_extraction.1 pW5 (resOf pW5) []
      "</spring-boot.version>\n<spring-modulith.version>2.0.1</spring-modulith.version>\n<testcontainers.version>3.4</testcontainers.version>".toList
      rfl rfl (by decide) (by decide)
  · exact c5_version_extraction.2.1 pW5abs (resOf pW5abs) "no version tags".toList
      rfl rfl (by decide)
  · exact c5_version_extraction.2.2.2.1 pW5abs (resOf pW5abs) "no version tags".toList
      rfl rfl (by decide)
  · exact c5_version_extraction.2.2.2.2.2 pW5abs (resOf pW5abs) "no version tags".toList
      rfl rfl (by decide)

/-- C10: the version capture accepts only digits and dots, so a tag value of
the form `ver ++ rest` with `ver` a nonempty digits-and-dots run and `rest`
starting otherwise stores exactly `ver` (the suffix is dropped); and when
every candidate position other than the tag occurrence is a non-match and
the tag value starts with a non-digit, non-dot character, the field stays
at the sentinel. -/
theorem c10_version_capture :
    (∀ (p : Project) (r : ScanResult) (pre ver post : List Char),
        scan p = Except.ok r →
        p.pom = some (Except.ok (pre ++ (sbLit ++ (ver ++ post)))) →
        (∀ k, k < pre.length →
          matchesAt sbLit ((pre ++ (sbLit ++ (ver ++ post))).drop k) = false) →
        ver.all isVerChar = true → ver ≠ [] → headNotVer post = true →
        r.spring_boot_version = String.mk ver)
    ∧ (∀ (p : Project) (r : ScanResult) (pre post : List Char),
        scan p = Except.ok r →
        p.pom = some (Except.ok (pre ++ (sbLit ++ post))) →
        headNotVer post = true →
        (∀ k, k < (pre ++ (sbLit ++ post)).length → k ≠ pre.length →
          matchesAt sbLit ((pre ++ (sbLit ++ post)).drop k) = false) →
        r.spring_boot_version = "Unknown") := by
  constructor
  · intro p r pre ver post h hp hk hv hne hn
    rw [(version_field_eq h hp).1, extractVer_decomp hk hv hne hn]
  · intro p r pre post h hp hn hk
    rw [(version_field_eq h hp).1]
    apply extractVer_none
    intro k hklen
    by_cases hke : k = pre.length
    · subst hke
      rw [List.drop_left]
      unfold matchesAt
      rw [List.drop_left, headNotVer_verHeadOk hn]
      simp
    · exact hk k hklen hke

/-- Witness for C10 at concrete poms: the suffixed tag value `4.0.0-M1`
stores `4.0.0`, and the tag value `M1` leaves the field at the sentinel. -/
theorem c10_version_capture_witness :
    (resOf pW10).spring_boot_version = "4.0.0"
      ∧ (resOf pW10b).spring_boot_version = "Unknown" := by
  constructor
  · exact c10_version_capture.1 pW10 (resOf pW10) [] "4.0.0".toList
      "-M1</spring-boot.version>".toList rfl rfl (by decide) (by decide) (by decide)
      (by decide)
  · exact c10_version_capture.2 pW10b (resOf pW10b) [] "M1</spring-boot.version>".toList
      rfl rfl (by decide) (by decide)

/-- C8: the version fields are written only by the pom step — after a
successful scan they equal the pure first-match extraction from the build
descriptor (`pomVersions`, the first successful detection) — and none of the
later scanners (source files, configuration, migrations) changes them. -/
theorem c8_versions_write_once :
    (∀ (fs : List (String × Except String (List Char))) (r : ScanResult),
        versions (scanJavaFiles fs r) = versions r)
    ∧ (∀ (p : Project) (r : ScanResult),
        versions (scanProperties p r) = versions r)
    ∧ (∀ (mig : Option (Option (List (List Char)))) (r : ScanResult),
        versions (scanFlyway mig r) = versions r)
    ∧ (∀ (p : Project) (r : ScanResult), scan p = Except.ok r →
        versions r = pomVersions p) := by
  refine ⟨?_, ?_, ?_, ?_⟩
  · intro fs r
    rw [scanJavaFiles_spec]
    rfl
  · intro p r
    rfl
  · intro mig r
    rfl
  · intro p r h
    exact (scan_ok_spec h).1

/-- Witness for C8: the later scanners leave the version triple of concrete
states unchanged, and a concrete successful scan ends with exactly the
pom-extracted versions. -/
theorem c8_versions_write_once_witness :
    versions (scanJavaFiles [("A.java", Except.ok "x".toList)] initResult)
        = versions initResult
      ∧ versions (scanProperties pW2 initResult) = versions initResult
      ∧ versions (scanFlyway (some none) initResult) = versions initResult
      ∧ versions (resOf pW1) = pomVersions pW1 :=
  ⟨c8_versions_write_once.1 [("A.java", Except.ok "x".toList)] initResult,
   c8_versions_write_once.2.1 pW2 initResult,
   c8_versions_write_once.2.2.1 (some none) initResult,
   c8_versions_write_once.2.2.2 pW1 (resOf pW1) rfl⟩

/-- C4 counterexample: a read failure on the build descriptor is NOT caught —
the scan of project `pX4`, whose pom read raises, aborts with the error
instead of completing successfully, so not every per-file read failure is
recovered locally. -/
theorem c4_error_isolation_counterexample :
    scan pX4 = Except.error "Permission denied" ∧ (scan pX4).isOk = false :=
  ⟨rfl, rfl⟩

/-- C4 amended: a read failure on an individual source or configuration file
is caught locally and that file's scan skipped (it contributes no issues),
and the whole run completes successfully — provided the build-descriptor
read itself does not fail, since that one read is not protected. -/
theorem c4_error_isolation :
    (∀ p : Project, (∀ e, p.pom ≠ some (Except.error e)) → (scan p).isOk = true)
    ∧ (∀ (path e : String), scanJavaFile path (Except.error e) = [])
    ∧ (∀ (path e ver : String), scanPropsFile path (Except.error e) ver = []) := by
  refine ⟨?_, ?_, ?_⟩
  · intro p h
    unfold scan
    cases hp : p.pom with
    | none => rfl
    | some rd =>
        cases rd with
        | ok c => rfl
        | error e => exact absurd hp (h e)
  · intro path e
    rfl
  · intro path e ver
    rfl

/-- Witness for C4 at a concrete project with unreadable source and
configuration files but a healthy (absent) build descriptor. -/
theorem c4_error_isolation_witness :
    (scan pW4).isOk = true
      ∧ scanJavaFile "A.java" (Except.error "bad encoding") = []
      ∧ scanPropsFile propsPathS (Except.error "bad encoding") "Unknown" = [] :=
  ⟨c4_error_isolation.1 pW4 (by intro e h; simp [pW4] at h),
   c4_error_isolation.2.1 "A.java" "bad encoding",
   c4_error_isolation.2.2 propsPathS "bad encoding" "Unknown"⟩

theorem countP_cat_pomIssuesOf {cat : String} (p : Project)
    (h1 : ¬ "Spring Boot 4 - Dependencies" = cat)
    (h2 : ¬ "Testcontainers 2.x - Dependencies" = cat) :
    (pomIssuesOf p).countP (fun x => x.category == cat) = 0 := by
  apply List.countP_eq_zero.2
  intro x hx
  unfold pomIssuesOf at hx
  split at hx
  · rcases (mem_scanPomIssues hx).2 with hc | hc
    · simp only [beq_iff_eq]
      rw [hc]
      exact h1
    · simp only [beq_iff_eq]
      rw [hc]
      exact h2
  · simp at hx

theorem countP_cat_javaAll {cat : String}
    (fs : List (String × Except String (List Char))) (h : ¬ cat ∈ javaCats) :
    (javaAll fs).countP (fun x => x.category == cat) = 0 := by
  apply List.countP_eq_zero.2
  intro x hx
  rcases mem_javaAll hx with ⟨path, rd, _, hm⟩
  unfold scanJavaFile at hm
  split at hm
  · simp at hm
  · have hc := (mem_scanJavaFileIssues hm).2
    simp only [beq_iff_eq]
    intro he
    exact h (he ▸ hc)

theorem countP_cat_propsFile_zero {cat : String} (path : String)
    (rd : Except String (List Char)) (ver : String)
    (h1 : ¬ cfgCat = cat) (h2 : ¬ modCfgCat = cat) :
    (scanPropsFile path rd ver).countP (fun x => x.category == cat) = 0 := by
  apply List.countP_eq_zero.2
  intro x hx
  rcases (mem_scanPropsFile hx).2 with hc | hc
  · simp only [beq_iff_eq]
    rw [hc]
    exact h1
  · simp only [beq_iff_eq]
    rw [hc.1]
    exact h2

theorem countP_cat_propsAll_zero {cat : String} (p : Project) (ver : String)
    (h1 : ¬ cfgCat = cat) (h2 : ¬ modCfgCat = cat) :
    (propsAll p ver).countP (fun x => x.category == cat) = 0 := by
  unfold propsAll
  rw [List.countP_append]
  have ha : ∀ (o : Option (Except String (List Char))) (path : String),
      ((match o with
        | some rd => scanPropsFile path rd ver
        | none => [] : List Issue)).countP (fun x => x.category == cat) = 0 := by
    intro o path
    cases o with
    | none => rfl
    | some rd => exact countP_cat_propsFile_zero path rd ver h1 h2
  rw [ha p.appProperties propsPathS, ha p.appYml ymlPathS]

/-- C1 counterexample: project `pX1` has a detected modulith version and no
migration root directory, yet the scan emits 0 migration-database issues —
the code returns silently instead of emitting the claimed CRITICAL issue. -/
theorem c1_flyway_counterexample :
    scan pX1 = Except.ok (resOf pX1)
      ∧ (resOf pX1).spring_modulith_version = "2.0.0"
      ∧ pX1.migrationRoot = none
      ∧ (resOf pX1).issues.countP (fun x => x.category == dbCat) = 0 :=
  ⟨rfl, rfl, rfl, rfl⟩

/-- C1 amended: with a detected modulith version, the migration checker
yields 0 issues when the migration root does not exist (it returns without
reporting), exactly 1 CRITICAL file-level issue when the root exists but the
`__root` subdirectory does not, exactly 1 CRITICAL file-level issue when
`__root` exists but no file matches the events glob, and 0 issues when a
matching file exists; every issue of the migration category is CRITICAL and
file-level. -/
theorem c1_flyway_outcomes (p : Project) (r : ScanResult)
    (h : scan p = Except.ok r) (hm : (pomVersions p).2.1 ≠ "Unknown") :
    r.issues.countP (fun x => x.category == dbCat)
      = (match p.migrationRoot with
         | none => 0
         | some none => 1
         | some (some names) => if names.any eventsGlob then 0 else 1)
    ∧ (∀ x ∈ r.issues, x.category = dbCat →
        x.severity = "CRITICAL" ∧ x.line_number = 0) := by
  rcases scan_ok_spec h with ⟨hv, hi⟩
  constructor
  · rw [hi]
    rw [List.countP_append, List.countP_append, List.countP_append]
    rw [countP_cat_pomIssuesOf p (by decide) (by decide)]
    rw [countP_cat_javaAll p.javaFiles (by decide)]
    rw [countP_cat_propsAll_zero p (pomVersions p).2.1 (by decide) (by decide)]
    have hver : ((pomVersions p).2.1 != "Unknown") = true := bne_iff_ne.2 hm
    unfold flywayIssues
    cases p.migrationRoot with
    | none => rfl
    | some sub =>
        cases sub with
        | none => simp [hver, dbCat]
        | some names =>
            cases han : names.any eventsGlob with
            | true => simp [han]
            | false => simp [han, hver, dbCat]
  · intro x hx hcat
    rw [hi] at hx
    simp only [List.mem_append] at hx
    rcases hx with ((hx | hx) | hx) | hx
    · unfold pomIssuesOf at hx
      split at hx
      · rcases (mem_scanPomIssues hx).2 with hc | hc
        · rw [hcat] at hc
          exact absurd hc (by decide)
        · rw [hcat] at hc
          exact absurd hc (by decide)
      · simp at hx
    · rcases mem_javaAll hx with ⟨path, rd, _, hmem⟩
      unfold scanJavaFile at hmem
      split at hmem
      · simp at hmem
      · have hc := (mem_scanJavaFileIssues hmem).2
        rw [hcat] at hc
        exact absurd hc (by decide)
    · unfold propsAll at hx
      rcases List.mem_append.1 hx with hx | hx
      all_goals
        split at hx
        · rcases (mem_scanPropsFile hx).2 with hc | hc
          · rw [hcat] at hc
            exact absurd hc (by decide)
          · rcases hc with ⟨hc1, _⟩
            rw [hcat] at hc1
            exact absurd hc1 (by decide)
        · simp at hx
    · exact ⟨(mem_flywayIssues hx).2.1, (mem_flywayIssues hx).2.2.1⟩

/-- Witness for C1 at the concrete project `pW1` (modulith version detected,
migration root present, `__root` missing): exactly one migration-database
issue is emitted. -/
theorem c1_flyway_outcomes_witness :
    (resOf pW1).issues.countP (fun x => x.category == dbCat) = 1 :=
  (c1_flyway_outcomes pW1 (resOf pW1) rfl (by decide)).1

theorem countP_modCfg_propsFile (path : String) (rd : Except String (List Char))
    (ver : String) :
    (scanPropsFile path rd ver).countP (fun x => x.category == modCfgCat)
      = (match rd with
         | Except.ok c => if ver != "Unknown" && !containsSub modKeyLit c then 1 else 0
         | Except.error _ => 0) := by
  unfold scanPropsFile
  cases rd with
  | error e => rfl
  | ok c =>
      rw [List.countP_append]
      have h1 : (linesIssues (jacksonPropLine path) 1 (splitNL c)).countP
          (fun x => x.category == modCfgCat) = 0 := by
        apply countP_linesIssues_zero
        intro j l x hx
        rw [(mem_jacksonPropLine hx).1]
        decide
      rw [h1]
      cases hcond : (ver != "Unknown" && !containsSub modKeyLit c) with
      | true => simp [hcond, modCfgIssue, List.countP_cons]
      | false => simp [hcond]

/-- C2 counterexample: project `pX2` has a detected modulith version and both
well-known configuration files present, each lacking the event-store schema
key — the scan emits TWO missing-configuration issues, not exactly one in
total. -/
theorem c2_modulith_config_counterexample :
    scan pX2 = Except.ok (resOf pX2)
      ∧ (resOf pX2).spring_modulith_version = "2.0.0"
      ∧ (resOf pX2).issues.countP (fun x => x.category == modCfgCat) = 2 :=
  ⟨rfl, rfl, rfl⟩

/-- C2 amended: with a detected modulith version, exactly one CRITICAL
file-level (line 0) missing-configuration issue is produced per present,
readable configuration file whose content lacks the schema key — so one when
exactly one such file is present, two when both are; with no detected
version, none is produced even if the key is absent everywhere. -/
theorem c2_modulith_config (p : Project) (r : ScanResult)
    (h : scan p = Except.ok r) :
    r.issues.countP (fun x => x.category == modCfgCat)
      = (if (pomVersions p).2.1 != "Unknown"
         then cfgLack p.appProperties + cfgLack p.appYml else 0)
    ∧ (∀ x ∈ r.issues, x.category = modCfgCat →
        x.severity = "CRITICAL" ∧ x.line_number = 0) := by
  rcases scan_ok_spec h with ⟨hv, hi⟩
  constructor
  · rw [hi]
    rw [List.countP_append, List.countP_append, List.countP_append]
    rw [countP_cat_pomIssuesOf p (by decide) (by decide)]
    rw [countP_cat_javaAll p.javaFiles (by decide)]
    have hfly : (flywayIssues p.migrationRoot (pomVersions p).2.1).countP
        (fun x => x.category == modCfgCat) = 0 := by
      apply List.countP_eq_zero.2
      intro x hx
      rw [(mem_flywayIssues hx).1]
      decide
    rw [hfly]
    have hopt : ∀ (o : Option (Except String (List Char))) (path : String),
        ((match o with
          | some rd => scanPropsFile path rd (pomVersions p).2.1
          | none => [] : List Issue)).countP (fun x => x.category == modCfgCat)
          = (if (pomVersions p).2.1 != "Unknown" then cfgLack o else 0) := by
      intro o path
      cases o with
      | none =>
          cases hu : (pomVersions p).2.1 != "Unknown" <;> simp [cfgLack, hu]
      | some rd =>
          rw [countP_modCfg_propsFile]
          cases rd with
          | error e =>
              cases hu : (pomVersions p).2.1 != "Unknown" <;> simp [cfgLack, hu]
          | ok c =>
              cases hu : (pomVersions p).2.1 != "Unknown" with
              | false => simp [cfgLack, hu]
              | true =>
                  cases hcon : containsSub modKeyLit c with
                  | true => simp [cfgLack, hu, hcon]
                  | false => simp [cfgLack, hu, hcon]
    unfold propsAll
    rw [List.countP_append, hopt p.appProperties propsPathS, hopt p.appYml ymlPathS]
    cases hu : (pomVersions p).2.1 != "Unknown" <;> simp [hu]
  · intro x hx hcat
    rw [hi] at hx
    simp only [List.mem_append] at hx
    rcases hx with ((hx | hx) | hx) | hx
    · unfold pomIssuesOf at hx
      split at hx
      · rcases (mem_scanPomIssues hx).2 with hc | hc
        · rw [hcat] at hc
          exact absurd hc (by decide)
        · rw [hcat] at hc
          exact absurd hc (by decide)
      · simp at hx
    · rcases mem_javaAll hx with ⟨path, rd, _, hmem⟩
      unfold scanJavaFile at hmem
      split at hmem
      · simp at hmem
      · have hc := (mem_scanJavaFileIssues hmem).2
        rw [hcat] at hc
        exact absurd hc (by decide)
    · unfold propsAll at hx
      rcases List.mem_append.1 hx with hx | hx
      all_goals
        split at hx
        · rcases (mem_scanPropsFile hx).2 with hc | hc
          · rw [hcat] at hc
            exact absurd hc (by decide)
          · exact ⟨hc.2.1, hc.2.2⟩
        · simp at hx
    · have hc := (mem_flywayIssues hx).1
      rw [hcat] at hc
      exact absurd hc (by decide)

/-- Witness for C2 at the concrete project `pW2` (modulith version detected,
exactly one configuration file present and lacking the key): exactly one
missing-configuration issue is emitted. -/
theorem c2_modulith_config_witness :
    (resOf pW2).issues.countP (fun x => x.category == modCfgCat) = 1 :=
  (c2_modulith_config pW2 (resOf pW2) rfl).1

/-- C3 counterexample: in `pomX3` the old security group identifier sits
exactly 3 lines before the artifact line (line 4), so it lies inside the
claimed 3-before/2-after window, yet the window the code actually tests does
not contain it and the scan emits no security-dependency issue. -/
theorem c3_context_window_counterexample :
    containsSub secArtLit ((splitNL pomX3).getD 3 []) = true
      ∧ containsSub secGroupLit
          (joinNL (((splitNL pomX3).take (4 + 2)).drop (4 - 4))) = true
      ∧ containsSub secGroupLit (contextWindow (splitNL pomX3) 4) = false
      ∧ (resOf pX3).issues.countP
          (fun x => x.issue == "Old spring-security-test dependency") = 0 :=
  ⟨by decide, by decide, by decide, rfl⟩

/-- C3 amended: for a match on 1-based line `i` (away from the start of the
file), the context string tested is the join of the 2 lines before `i`
through the 2 lines after `i` — five lines starting at line `i - 2` — and
both the spring-security-test check and the Testcontainers bare-artifact
check test exactly this window. -/
theorem c3_context_window (lines : List (List Char)) (i : Nat) (hi : 3 ≤ i) :
    contextWindow lines i = joinNL ((lines.drop (i - 3)).take 5)
    ∧ (∀ (path : String) (l : List Char),
        secLine path lines i l
          = if containsSub secArtLit l
                && containsSub secGroupLit (contextWindow lines i) then
              [⟨"Spring Boot 4 - Dependencies", "CRITICAL", path, i,
                "Old spring-security-test dependency",
                "Change to: spring-boot-starter-security-test"⟩]
            else [])
    ∧ (∀ (path : String) (l : List Char),
        tcArtLine path lines i l
          = tcArtRules.filterMap fun rule =>
              if containsSub rule.pattern l
                  && containsSub tcGroupLit (contextWindow lines i) then
                some ⟨"Testcontainers 2.x - Dependencies", "WARNING", path, i,
                      rule.descr, rule.sugg⟩
              else none) := by
  refine ⟨?_, ?_, ?_⟩
  · unfold contextWindow
    rw [List.drop_take]
    have h5 : i + 2 - (i - 3) = 5 := by omega
    rw [h5]
  · intro path l
    rfl
  · intro path l
    rfl

/-- Witness for C3 at concrete lines and line number 3: the tested window is
the five lines starting two before the match. -/
theorem c3_context_window_witness :
    contextWindow linesW3 3 = joinNL ((linesW3.drop (3 - 3)).take 5) :=
  (c3_context_window linesW3 3 (by decide)).1

theorem pred1_line {i : Nat} (x : Issue)
    (h : (x.category == taCat && x.severity == "CRITICAL" && x.line_number == i
          && x.issue == "Old test annotation: @MockBean") = true) :
    x.line_number = i := by
  simp only [Bool.and_eq_true, beq_iff_eq] at h
  exact h.1.2

theorem pred1_cat_false {i : Nat} (x : Issue) (h : x.category ≠ taCat) :
    (x.category == taCat && x.severity == "CRITICAL" && x.line_number == i
      && x.issue == "Old test annotation: @MockBean") = false := by
  cases hbe : (x.category == taCat) with
  | true => exact absurd (beq_iff_eq.1 hbe) h
  | false => simp [hbe]

theorem pred2_line {i : Nat} (x : Issue)
    (h : (x.category == taCat && x.line_number == i) = true) :
    x.line_number = i := by
  simp only [Bool.and_eq_true, beq_iff_eq] at h
  exact h.2

theorem pred2_cat_false {i : Nat} (x : Issue) (h : x.category ≠ taCat) :
    (x.category == taCat && x.line_number == i) = false := by
  cases hbe : (x.category == taCat) with
  | true => exact absurd (beq_iff_eq.1 hbe) h
  | false => simp [hbe]

theorem countP_ite_zero {p : Issue → Bool} (g : Bool) (L : List Issue)
    (hL : L.countP p = 0) : (if g = true then L else []).countP p = 0 := by
  cases g with
  | true => simpa using hL
  | false => rfl

theorem countP_runRules (cat sev path : String) (i : Nat) (l : List Char)
    (p : Issue → Bool) :
    ∀ rules : List LineRule,
      (runRules cat sev path rules i l).countP p
        = rules.countP (fun rule =>
            containsSub rule.pattern l && (!rule.commentGuard || !isCommentLine l)
              && p ⟨cat, sev, path, i, rule.descr, rule.sugg⟩) := by
  intro rules
  induction rules with
  | nil => rfl
  | cons r rs ih =>
      unfold runRules at ih ⊢
      rw [List.countP_cons, List.filterMap_cons]
      cases hcond : (containsSub r.pattern l && (!r.commentGuard || !isCommentLine l)) with
      | false =>
          rw [if_neg (by simp [hcond]), ih]
          simp
      | true =>
          rw [if_pos (by simp [hcond]), List.countP_cons, ih]
          simp

theorem countP_annLine_p1 (path : String) (i : Nat) (l : List Char) :
    (annLine path i l).countP
      (fun x => x.category == taCat && x.severity == "CRITICAL"
        && x.line_number == i && x.issue == "Old test annotation: @MockBean")
      = (if containsSub "@MockBean".toList l && !isCommentLine l then 1 else 0) := by
  have hd : (("Old test annotation: @SpyBean" : String)
      == "Old test annotation: @MockBean") = false := by decide
  unfold annLine
  rw [countP_runRules]
  unfold annRules
  rw [List.countP_cons, List.countP_cons, List.countP_nil]
  dsimp only
  simp only [hd, beq_self_eq_true, Bool.not_true, Bool.false_or, Bool.and_true,
    Bool.and_false, Bool.true_and, if_false]
  cases hm : containsSub "@MockBean".toList l <;> cases hc : isCommentLine l <;>
    simp [hm, hc]

theorem countP_annLine_p2 (path : String) (i : Nat) (l : List Char)
    (hc : isCommentLine l = true) :
    (annLine path i l).countP
      (fun x => x.category == taCat && x.line_number == i) = 0 := by
  unfold annLine
  rw [countP_runRules]
  unfold annRules
  rw [List.countP_cons, List.countP_cons, List.countP_nil]
  dsimp only
  simp [hc]

theorem countP_linesIssues_cat_zero {p : Issue → Bool}
    (hp : ∀ x : Issue, x.category ≠ taCat → p x = false)
    {f : Nat → List Char → List Issue}
    (hf : ∀ j l x, x ∈ f j l → x.category ≠ taCat)
    (n : Nat) (ls : List (List Char)) : (linesIssues f n ls).countP p = 0 :=
  countP_linesIssues_zero (fun j l x hx => hp x (hf j l x hx)) n ls

/-- C6: for a source file and any 1-based line number `i` in range, the scan
of that file yields exactly one CRITICAL issue of the test-annotations
category at line `i` about `@MockBean` precisely when line `i` contains the
substring and its trimmed content does not start with the line-comment
marker; and when the trimmed line does start with the marker, the file scan
yields no test-annotations issue at line `i` at all. -/
theorem c6_mockbean_lines (path : String) (content : List Char) (i : Nat)
    (h1 : 1 ≤ i) (h2 : i ≤ (splitNL content).length) :
    (scanJavaFileIssues path content).countP
        (fun x => x.category == taCat && x.severity == "CRITICAL"
          && x.line_number == i && x.issue == "Old test annotation: @MockBean")
      = (if containsSub "@MockBean".toList ((splitNL content).getD (i - 1) [])
            && !isCommentLine ((splitNL content).getD (i - 1) []) then 1 else 0)
    ∧ (isCommentLine ((splitNL content).getD (i - 1) []) = true →
        (scanJavaFileIssues path content).countP
          (fun x => x.category == taCat && x.line_number == i) = 0) := by
  have hfann : ∀ (j : Nat) (l : List Char) (x : Issue),
      x ∈ annLine path j l → x.line_number = j := by
    intro j l x hx
    unfold annLine at hx
    exact (mem_runRules hx).2.2.2
  have hcat2 : ∀ (j : Nat) (l : List Char) (x : Issue),
      x ∈ importLine path j l → x.category ≠ taCat := by
    intro j l x hx
    unfold importLine at hx
    rw [(mem_runRules hx).1]
    decide
  have hcat3 : ∀ (j : Nat) (l : List Char) (x : Issue),
      x ∈ tcImportLine path j l → x.category ≠ taCat := by
    intro j l x hx
    unfold tcImportLine at hx
    rw [(mem_runRules hx).1]
    decide
  have hcat4 : ∀ (j : Nat) (l : List Char) (x : Issue),
      x ∈ lsServiceLine path j l → x.category ≠ taCat := by
    intro j l x hx
    unfold lsServiceLine at hx
    rw [(mem_runRules hx).1]
    decide
  have hcat5 : ∀ (j : Nat) (l : List Char) (x : Issue),
      x ∈ resilienceLine path j l → x.category ≠ taCat := by
    intro j l x hx
    unfold resilienceLine at hx
    rw [(mem_runRules hx).1]
    decide
  have hcat6 : ∀ (j : Nat) (l : List Char) (x : Issue),
      x ∈ retryableLine path j l → x.category ≠ taCat := by
    intro j l x hx
    unfold retryableLine at hx
    rw [(mem_runRules hx).1]
    decide
  have hcat7 : ∀ (j : Nat) (l : List Char) (x : Issue),
      x ∈ jacksonLine path j l → x.category ≠ taCat := by
    intro j l x hx
    unfold jacksonLine at hx
    rw [(mem_runRules hx).1]
    decide
  have hcat8 : ∀ (j : Nat) (l : List Char) (x : Issue),
      x ∈ genericLine path j l → x.category ≠ taCat := by
    intro j l x hx
    rw [(mem_genericLine hx).1]
    decide
  have hcat9 : ∀ (j : Nat) (l : List Char) (x : Issue),
      x ∈ endpointLine path j l → x.category ≠ taCat := by
    intro j l x hx
    rw [(mem_endpointLine hx).1]
    decide
  constructor
  · unfold scanJavaFileIssues
    simp only [List.countP_append]
    rw [countP_linesIssues_at hfann (pred1_line (i := i)) 1 (splitNL content) h1
      (by omega)]
    rw [countP_annLine_p1]
    rw [countP_linesIssues_cat_zero (pred1_cat_false (i := i)) hcat2 1 (splitNL content)]
    rw [countP_linesIssues_cat_zero (pred1_cat_false (i := i)) hcat3 1 (splitNL content)]
    rw [countP_ite_zero _ _
      (countP_linesIssues_cat_zero (pred1_cat_false (i := i)) hcat4 1 (splitNL content))]
    rw [countP_ite_zero _ _
      (countP_linesIssues_cat_zero (pred1_cat_false (i := i)) hcat5 1 (splitNL content))]
    rw [countP_ite_zero _ _
      (countP_linesIssues_cat_zero (pred1_cat_false (i := i)) hcat6 1 (splitNL content))]
    rw [countP_linesIssues_cat_zero (pred1_cat_false (i := i)) hcat7 1 (splitNL content)]
    rw [countP_ite_zero _ _
      (countP_linesIssues_cat_zero (pred1_cat_false (i := i)) hcat8 1 (splitNL content))]
    rw [countP_ite_zero _ _
      (countP_linesIssues_cat_zero (pred1_cat_false (i := i)) hcat9 1 (splitNL content))]
    omega
  · intro hc
    unfold scanJavaFileIssues
    simp only [List.countP_append]
    rw [countP_linesIssues_at hfann (pred2_line (i := i)) 1 (splitNL content) h1
      (by omega)]
    rw [countP_annLine_p2 path i _ hc]
    rw [countP_linesIssues_cat_zero (pred2_cat_false (i := i)) hcat2 1 (splitNL content)]
    rw [countP_linesIssues_cat_zero (pred2_cat_false (i := i)) hcat3 1 (splitNL content)]
    rw [countP_ite_zero _ _
      (countP_linesIssues_cat_zero (pred2_cat_false (i := i)) hcat4 1 (splitNL content))]
    rw [countP_ite_zero _ _
      (countP_linesIssues_cat_zero (pred2_cat_false (i := i)) hcat5 1 (splitNL content))]
    rw [countP_ite_zero _ _
      (countP_linesIssues_cat_zero (pred2_cat_false (i := i)) hcat6 1 (splitNL content))]
    rw [countP_linesIssues_cat_zero (pred2_cat_false (i := i)) hcat7 1 (splitNL content)]
    rw [countP_ite_zero _ _
      (countP_linesIssues_cat_zero (pred2_cat_false (i := i)) hcat8 1 (splitNL content))]
    rw [countP_ite_zero _ _
      (countP_linesIssues_cat_zero (pred2_cat_false (i := i)) hcat9 1 (splitNL content))]

/-- Witness for C6 at a concrete file: line 1 carries a live `@MockBean`
and yields exactly one issue; line 2 is commented out and yields none. -/
theorem c6_mockbean_lines_witness :
    (scanJavaFileIssues "A.java" cW6).countP
        (fun x => x.category == taCat && x.severity == "CRITICAL"
          && x.line_number == 1 && x.issue == "Old test annotation: @MockBean")
      = (if containsSub "@MockBean".toList ((splitNL cW6).getD 0 [])
            && !isCommentLine ((splitNL cW6).getD 0 []) then 1 else 0)
      ∧ (isCommentLine ((splitNL cW6).getD 1 []) = true →
          (scanJavaFileIssues "A.java" cW6).countP
            (fun x => x.category == taCat && x.line_number == 2) = 0) :=
  ⟨(c6_mockbean_lines "A.java" cW6 1 (by decide) (by decide)).1,
   (c6_mockbean_lines "A.java" cW6 2 (by decide) (by decide)).2⟩

theorem mem_insertSorted {s x : String} :
    ∀ {l : List String}, x ∈ insertSorted s l ↔ x = s ∨ x ∈ l := by
  intro l
  induction l with
  | nil => simp [insertSorted]
  | cons t ts ih =>
      unfold insertSorted
      split
      · simp [List.mem_cons]
      · simp only [List.mem_cons, ih]
        tauto

theorem nodup_insertSorted {s : String} :
    ∀ {l : List String}, s ∉ l → l.Nodup → (insertSorted s l).Nodup := by
  intro l
  induction l with
  | nil => intro _ _; simp [insertSorted]
  | cons t ts ih =>
      intro hm hn
      unfold insertSorted
      split
      · exact List.nodup_cons.2 ⟨hm, hn⟩
      · rcases List.nodup_cons.1 hn with ⟨ht, hts⟩
        refine List.nodup_cons.2 ⟨?_, ih (fun hs => hm (List.mem_cons_of_mem _ hs)) hts⟩
        intro hmem
        rcases mem_insertSorted.1 hmem with he | he
        · exact hm (he ▸ List.mem_cons_self t ts)
        · exact ht he

theorem mem_sortKeys {x : String} :
    ∀ {l : List String}, x ∈ sortKeys l ↔ x ∈ l := by
  intro l
  induction l with
  | nil => simp [sortKeys]
  | cons k ks ih =>
      unfold sortKeys
      rw [mem_insertSorted, ih]
      simp [List.mem_cons]

theorem nodup_sortKeys : ∀ {l : List String}, l.Nodup → (sortKeys l).Nodup := by
  intro l
  induction l with
  | nil => intro _; simp [sortKeys]
  | cons k ks ih =>
      intro hn
      rcases List.nodup_cons.1 hn with ⟨hk, hks⟩
      exact nodup_insertSorted (fun hs => hk (mem_sortKeys.1 hs)) (ih hks)

theorem groups_filter_nil {issues : List Issue} {x : Issue} :
    ∀ {ks : List String}, issueKey x ∉ ks →
      ((ks.map (fun k => (k, issues.filter (fun y => issueKey y == k)))).filter
        (fun g => decide (x ∈ g.2))) = [] := by
  intro ks
  induction ks with
  | nil => intro _; rfl
  | cons k ktl ih =>
      intro hm
      rw [List.map_cons, List.filter_cons]
      have hne : ¬ x ∈ issues.filter (fun y => issueKey y == k) := by
        intro hmem
        have hbe : issueKey x = k := beq_iff_eq.1 (List.mem_filter.1 hmem).2
        exact hm (by rw [hbe]; exact List.mem_cons_self k ktl)
      rw [if_neg (by simpa using hne)]
      exact ih (fun hs => hm (List.mem_cons_of_mem _ hs))

theorem groups_filter_eq {issues : List Issue} {x : Issue} (hx : x ∈ issues) :
    ∀ {ks : List String}, ks.Nodup → issueKey x ∈ ks →
      ((ks.map (fun k => (k, issues.filter (fun y => issueKey y == k)))).filter
        (fun g => decide (x ∈ g.2))).map Prod.fst = [issueKey x] := by
  intro ks
  induction ks with
  | nil => intro _ h; simp at h
  | cons k ktl ih =>
      intro hn hmem
      rw [List.map_cons, List.filter_cons]
      rcases List.nodup_cons.1 hn with ⟨hk, hktl⟩
      by_cases hke : issueKey x = k
      · have hin : x ∈ issues.filter (fun y => issueKey y == k) :=
          List.mem_filter.2 ⟨hx, beq_iff_eq.2 hke⟩
        rw [if_pos (by simpa using hin)]
        rw [List.map_cons]
        have hnil : ((ktl.map (fun k => (k, issues.filter (fun y => issueKey y == k)))).filter
            (fun g => decide (x ∈ g.2))) = [] :=
          groups_filter_nil (fun hs => hk (hke ▸ hs))
        rw [hnil]
        simp [hke]
      · have hnin : ¬ x ∈ issues.filter (fun y => issueKey y == k) := by
          intro hmem2
          exact hke (beq_iff_eq.1 (List.mem_filter.1 hmem2).2)
        rw [if_neg (by simpa using hnin)]
        rcases List.mem_cons.1 hmem with he | he
        · exact absurd he hke
        · exact ih hktl he

/-- C7: on an empty issue list the report is the all-clear message with no
summary block; otherwise the summary's CRITICAL, WARNING and INFO counts
equal the exact number of issues of each severity, the total equals the list
length, and every issue appears under exactly one group — the group keyed by
its own category-severity string. -/
theorem c7_report (issues : List Issue) :
    (issues = [] → printReport issues = Report.allClear)
    ∧ (issues ≠ [] → printReport issues = Report.summary
        ((issues.filter (fun x => x.severity == "CRITICAL")).length)
        ((issues.filter (fun x => x.severity == "WARNING")).length)
        ((issues.filter (fun x => x.severity == "INFO")).length)
        issues.length (reportGroups issues))
    ∧ (∀ x ∈ issues,
        ((reportGroups issues).filter (fun g => decide (x ∈ g.2))).map Prod.fst
          = [issueKey x]) := by
  refine ⟨?_, ?_, ?_⟩
  · intro h
    subst h
    rfl
  · intro h
    unfold printReport
    rw [if_neg (by simp [List.isEmpty_iff, h])]
    rw [List.countP_eq_length_filter, List.countP_eq_length_filter,
      List.countP_eq_length_filter]
  · intro x hx
    unfold reportGroups
    exact groups_filter_eq hx (nodup_sortKeys (List.nodup_dedup _))
      (mem_sortKeys.2 (List.mem_dedup.2 (List.mem_map_of_mem _ hx)))

/-- Witness for C7 at concrete inputs: the empty list renders all-clear, a
two-issue list over two categories and two severities renders the exact
counts, and the first issue appears exactly under its own group key. -/
theorem c7_report_witness :
    printReport [] = Report.allClear
      ∧ printReport [iW7a, iW7b]
          = Report.summary 1 1 0 2 (reportGroups [iW7a, iW7b])
      ∧ ((reportGroups [iW7a, iW7b]).filter
            (fun g => decide (iW7a ∈ g.2))).map Prod.fst = [issueKey iW7a] := by
  refine ⟨(c7_report []).1 rfl, ?_, ?_⟩
  · exact (c7_report [iW7a, iW7b]).2.1 (List.cons_ne_nil _ _)
  · exact (c7_report [iW7a, iW7b]).2.2 iW7a (List.mem_cons_self _ _)

theorem mem_scanJavaFile_path {x : Issue} {s : String}
    {rd : Except String (List Char)} (h : x ∈ scanJavaFile s rd) :
    x.file_path = s := by
  unfold scanJavaFile at h
  split at h
  · simp at h
  · exact (mem_scanJavaFileIssues h).1

theorem scanJavaFile_filter_nil {q s : String} {rd : Except String (List Char)}
    (hne : s ≠ q) :
    (scanJavaFile s rd).filter (fun x => x.file_path == q) = [] := by
  rw [List.filter_eq_nil_iff]
  intro x hx
  rw [mem_scanJavaFile_path hx]
  simp [hne]

theorem javaAll_filter_eq_nil {q : String} :
    ∀ {fs : List (String × Except String (List Char))},
      q ∉ fs.map Prod.fst →
      (javaAll fs).filter (fun x => x.file_path == q) = [] := by
  intro fs
  induction fs with
  | nil => intro _; rfl
  | cons f rest ih =>
      intro hq
      cases f with
      | mk s rd =>
          show ((scanJavaFile s rd ++ javaAll rest).filter (fun x => x.file_path == q)) = []
          rw [List.filter_append]
          rw [scanJavaFile_filter_nil (fun he => hq (by rw [← he]; exact List.mem_cons_self _ _))]
          rw [ih (fun hm => hq (List.mem_cons_of_mem _ hm))]
          rfl

theorem javaAll_filter_eraseIdx {q : String} :
    ∀ (fs : List (String × Except String (List Char))) (k : Nat),
      (fs.map Prod.fst).Nodup →
      q ∈ (fs.eraseIdx k).map Prod.fst →
      (javaAll (fs.eraseIdx k)).filter (fun x => x.file_path == q)
        = (javaAll fs).filter (fun x => x.file_path == q) := by
  intro fs
  induction fs with
  | nil => intro k _ hq; simp at hq
  | cons f rest ih =>
      intro k hn hq
      cases f with
      | mk s rd =>
          rcases List.nodup_cons.1 hn with ⟨hs, hrest⟩
          cases k with
          | zero =>
              rw [List.eraseIdx_cons_zero] at hq ⊢
              have hsq : s ≠ q := by
                intro he
                exact hs (he ▸ hq)
              show (javaAll rest).filter (fun x => x.file_path == q)
                = ((scanJavaFile s rd ++ javaAll rest).filter (fun x => x.file_path == q))
              rw [List.filter_append, scanJavaFile_filter_nil hsq]
              rfl
          | succ m =>
              rw [List.eraseIdx_cons_succ] at hq ⊢
              show ((scanJavaFile s rd ++ javaAll (rest.eraseIdx m)).filter
                  (fun x => x.file_path == q))
                = ((scanJavaFile s rd ++ javaAll rest).filter (fun x => x.file_path == q))
              rw [List.filter_append, List.filter_append]
              rcases List.mem_cons.1 hq with he | hm
              · have hq1 : q ∉ (rest.eraseIdx m).map Prod.fst := by
                  intro hmem
                  exact hs (he ▸ ((List.eraseIdx_sublist rest m).map Prod.fst).subset hmem)
                have hq2 : q ∉ rest.map Prod.fst := fun hmem => hs (he ▸ hmem)
                rw [javaAll_filter_eq_nil hq1, javaAll_filter_eq_nil hq2]
              · rw [ih m hrest hm]

theorem propsFile_filter_nil {q path : String} {rd : Except String (List Char)}
    {ver : String} (h : path ≠ q) :
    (scanPropsFile path rd ver).filter (fun x => x.file_path == q) = [] := by
  rw [List.filter_eq_nil_iff]
  intro x hx
  rw [(mem_scanPropsFile hx).1]
  simp [h]

theorem flyway_filter_nil {q : String} {mig : Option (Option (List (List Char)))}
    {ver : String} (h1 : migDirS ≠ q) (h2 : migRootDirS ≠ q) :
    (flywayIssues mig ver).filter (fun x => x.file_path == q) = [] := by
  rw [List.filter_eq_nil_iff]
  intro x hx
  rcases (mem_flywayIssues hx).2.2.2 with hp | hp
  · rw [hp]
    simp [h2]
  · rw [hp]
    simp [h1]

theorem pomIssues_filter_nil {q : String} {p : Project} (h : pomPathS p ≠ q) :
    (pomIssuesOf p).filter (fun x => x.file_path == q) = [] := by
  rw [List.filter_eq_nil_iff]
  intro x hx
  unfold pomIssuesOf at hx
  split at hx
  · rw [(mem_scanPomIssues hx).1]
    simp [h]
  · simp at hx

/-- C9 counterexample: deleting the build descriptor (one file) from `pX9`
changes the issues reported for the configuration file, which is present and
unchanged in both trees — the missing event-store issue disappears because
the modulith version is no longer detected. -/
theorem c9_file_independence_counterexample :
    pX9d.appProperties = pX9.appProperties
      ∧ (issuesFor (resOf pX9) propsPathS).length = 1
      ∧ (issuesFor (resOf pX9d) propsPathS).length = 0 :=
  ⟨rfl, rfl, rfl⟩

/-- C9 amended: for two trees that differ only by the deletion of one file
OTHER THAN the build descriptor (a source file, a configuration file, or a
migration file), under the natural path-hygiene assumptions every remaining
source or configuration file is attributed exactly the same issues in both
scans; deleting the build descriptor is excluded because the configuration
scanner consumes the version it detects. -/
theorem c9_file_independence (p p' : Project) (hd : DeleteOne p p')
    (hsep : sepPaths p) (r r' : ScanResult)
    (h : scan p = Except.ok r) (h' : scan p' = Except.ok r') (q : String)
    (hq : q ∈ p'.javaFiles.map Prod.fst
      ∨ (q = propsPathS ∧ p'.appProperties.isSome = true)
      ∨ (q = ymlPathS ∧ p'.appYml.isSome = true)) :
    issuesFor r q = issuesFor r' q := by
  rcases hsep with ⟨hnodup, hjava, -, -, -, -⟩
  rcases scan_ok_spec h with ⟨-, hi⟩
  rcases scan_ok_spec h' with ⟨-, hi'⟩
  unfold issuesFor
  rw [hi, hi']
  cases hd with
  | java k hk =>
      have e1 : pomIssuesOf { p with javaFiles := p.javaFiles.eraseIdx k }
          = pomIssuesOf p := rfl
      have e2 : pomVersions { p with javaFiles := p.javaFiles.eraseIdx k }
          = pomVersions p := rfl
      have e3 : propsAll { p with javaFiles := p.javaFiles.eraseIdx k }
          = propsAll p := rfl
      have e4 : ({ p with javaFiles := p.javaFiles.eraseIdx k } : Project).migrationRoot
          = p.migrationRoot := rfl
      have e5 : ({ p with javaFiles := p.javaFiles.eraseIdx k } : Project).javaFiles
          = p.javaFiles.eraseIdx k := rfl
      dsimp only at hq
      rw [e1, e2, e3, e4, e5]
      simp only [List.filter_append]
      rcases hq with hqj | ⟨rfl, -⟩ | ⟨rfl, -⟩
      · rw [javaAll_filter_eraseIdx p.javaFiles k hnodup hqj]
      · have hnin : propsPathS ∉ p.javaFiles.map Prod.fst :=
          fun hm => (hjava _ hm).2.1 rfl
        rw [javaAll_filter_eq_nil hnin,
          javaAll_filter_eq_nil
            (fun hm => hnin (((List.eraseIdx_sublist _ k).map Prod.fst).subset hm))]
      · have hnin : ymlPathS ∉ p.javaFiles.map Prod.fst :=
          fun hm => (hjava _ hm).2.2.1 rfl
        rw [javaAll_filter_eq_nil hnin,
          javaAll_filter_eq_nil
            (fun hm => hnin (((List.eraseIdx_sublist _ k).map Prod.fst).subset hm))]
  | props rd hpr =>
      have e1 : pomIssuesOf { p with appProperties := none } = pomIssuesOf p := rfl
      have e2 : pomVersions { p with appProperties := none } = pomVersions p := rfl
      have e4 : ({ p with appProperties := none } : Project).migrationRoot
          = p.migrationRoot := rfl
      have e5 : ({ p with appProperties := none } : Project).javaFiles
          = p.javaFiles := rfl
      have e3 : propsAll { p with appProperties := none } ((pomVersions p).2.1)
          = (match p.appYml with
             | some rd2 => scanPropsFile ymlPathS rd2 ((pomVersions p).2.1)
             | none => []) := rfl
      have e6 : propsAll p ((pomVersions p).2.1)
          = scanPropsFile propsPathS rd ((pomVersions p).2.1)
            ++ (match p.appYml with
                | some rd2 => scanPropsFile ymlPathS rd2 ((pomVersions p).2.1)
                | none => []) := by
        unfold propsAll
        rw [hpr]
      dsimp only at hq
      rw [e1, e2, e4, e5, e3, e6]
      have hqne : propsPathS ≠ q := by
        rcases hq with hqj | ⟨rfl, hs⟩ | ⟨rfl, -⟩
        · exact fun he => (hjava _ hqj).2.1 he.symm
        · simp at hs
        · decide
      simp only [List.filter_append]
      rw [propsFile_filter_nil hqne]
      simp
  | yml rd hyr =>
      have e1 : pomIssuesOf { p with appYml := none } = pomIssuesOf p := rfl
      have e2 : pomVersions { p with appYml := none } = pomVersions p := rfl
      have e4 : ({ p with appYml := none } : Project).migrationRoot
          = p.migrationRoot := rfl
      have e5 : ({ p with appYml := none } : Project).javaFiles = p.javaFiles := rfl
      have e3 : propsAll { p with appYml := none } ((pomVersions p).2.1)
          = (match p.appProperties with
             | some rd2 => scanPropsFile propsPathS rd2 ((pomVersions p).2.1)
             | none => []) ++ [] := rfl
      have e6 : propsAll p ((pomVersions p).2.1)
          = (match p.appProperties with
             | some rd2 => scanPropsFile propsPathS rd2 ((pomVersions p).2.1)
             | none => [])
            ++ scanPropsFile ymlPathS rd ((pomVersions p).2.1) := by
        unfold propsAll
        rw [hyr]
      dsimp only at hq
      rw [e1, e2, e4, e5, e3, e6]
      have hqne : ymlPathS ≠ q := by
        rcases hq with hqj | ⟨rfl, -⟩ | ⟨rfl, hs⟩
        · exact fun he => (hjava _ hqj).2.2.1 he.symm
        · decide
        · simp at hs
      simp only [List.filter_append]
      rw [propsFile_filter_nil hqne]
      simp
  | migration names k hmr hk =>
      have e1 : pomIssuesOf { p with migrationRoot := some (some (names.eraseIdx k)) }
          = pomIssuesOf p := rfl
      have e2 : pomVersions { p with migrationRoot := some (some (names.eraseIdx k)) }
          = pomVersions p := rfl
      have e3 : propsAll { p with migrationRoot := some (some (names.eraseIdx k)) }
          = propsAll p := rfl
      have e4 : ({ p with migrationRoot := some (some (names.eraseIdx k)) }
          : Project).migrationRoot = some (some (names.eraseIdx k)) := rfl
      have e5 : ({ p with migrationRoot := some (some (names.eraseIdx k)) }
          : Project).javaFiles = p.javaFiles := rfl
      dsimp only at hq
      rw [e1, e2, e3, e4, e5]
      have hq1 : migDirS ≠ q := by
        rcases hq with hqj | ⟨rfl, -⟩ | ⟨rfl, -⟩
        · exact fun he => (hjava _ hqj).2.2.2.1 he.symm
        · decide
        · decide
      have hq2 : migRootDirS ≠ q := by
        rcases hq with hqj | ⟨rfl, -⟩ | ⟨rfl, -⟩
        · exact fun he => (hjava _ hqj).2.2.2.2 he.symm
        · decide
        · decide
      simp only [List.filter_append]
      rw [flyway_filter_nil hq1 hq2, flyway_filter_nil hq1 hq2]

/-- Witness for C9 at a concrete project: deleting the first of two source
files leaves the issues attributed to the remaining source file unchanged. -/
theorem c9_file_independence_witness :
    issuesFor (resOf pW9) "B.java"
      = issuesFor (resOf { pW9 with javaFiles := pW9.javaFiles.eraseIdx 0 }) "B.java" :=
  c9_file_independence pW9 { pW9 with javaFiles := pW9.javaFiles.eraseIdx 0 }
    (DeleteOne.java pW9 0 (by decide))
    ⟨by decide, by decide, by decide, by decide, by decide, by decide⟩
    (resOf pW9) (resOf { pW9 with javaFiles := pW9.javaFiles.eraseIdx 0 })
    rfl rfl "B.java" (Or.inl (by decide))
